import Mathlib

/-!
Verification of the income-percentile pipeline.

This file gives a shallow embedding, over exact rationals, of the two core
subsystems of the repository:

* the historical tax computation engine of `add_after_tax.py`
  (`compute_federal_tax`, `compute_fica`, `compute_state_tax`,
  `compute_after_tax`, `add_after_tax_to_data`), and
* the weighted percentile engine and distribution builder of
  `process_income.py` (`weighted_percentile`, `weighted_mean`,
  `compute_percentiles`).

Python floats are modelled as exact rationals; Python `dict`s of
year-indexed parameters are modelled as association lists looked up by
`lookupD`.
-/

/-- Dictionary lookup with a default, mirroring a Python `dict` lookup.
The first matching key wins, so entries placed earlier in the list shadow
later ones (used to model in-place overwrites of dict entries). -/
def lookupD {α : Type} (l : List (Int × α)) (y : Int) (d : α) : α :=
  match l.find? (fun p => decide (p.1 = y)) with
  | some p => p.2
  | none => d

/-- Round to the nearest integer, ties to even (the rounding used by
Python round, idealised to exact decimal arithmetic). -/
def roundHalfEven (x : Rat) : Int :=
  let f := ⌊x⌋
  let r := x - f
  if r < 1/2 then f
  else if 1/2 < r then f + 1
  else if 2 ∣ f then f else f + 1

/-- Python `round(x, 2)`. -/
def round2 (x : Rat) : Rat := (roundHalfEven (x * 100) : Rat) / 100

/-- Python `round(x, 4)`. -/
def round4 (x : Rat) : Rat := (roundHalfEven (x * 10000) : Rat) / 10000

/-- Truncation toward zero: Python `int(...)` applied to a float. -/
def ratTrunc (x : Rat) : Int := if 0 ≤ x then ⌊x⌋ else -⌊-x⌋

/- ═══════════════════════════════════════════════════════════════════════
   Year-indexed tax parameter tables, transcribed from `add_after_tax.py`.
   ═══════════════════════════════════════════════════════════════════════ -/

/-- Table `FEDERAL_BRACKETS`: each year maps to a list of
`(threshold, marginal_rate)` pairs over taxable income. -/
def FEDERAL_BRACKETS : List (Int × List (Rat × Rat)) := [
  (1961, [(0, 0.2), (2000, 0.22), (4000, 0.26), (6000, 0.3), (8000, 0.34), (10000, 0.38), (12000, 0.43), (14000, 0.47), (16000, 0.5), (18000, 0.53), (20000, 0.56), (22000, 0.59), (26000, 0.62), (32000, 0.65), (38000, 0.69), (44000, 0.72), (50000, 0.75), (60000, 0.78), (70000, 0.81), (80000, 0.84), (90000, 0.87), (100000, 0.89), (150000, 0.9), (200000, 0.91)]),
  (1962, [(0, 0.2), (2000, 0.22), (4000, 0.26), (6000, 0.3), (8000, 0.34), (10000, 0.38), (12000, 0.43), (14000, 0.47), (16000, 0.5), (18000, 0.53), (20000, 0.56), (22000, 0.59), (26000, 0.62), (32000, 0.65), (38000, 0.69), (44000, 0.72), (50000, 0.75), (60000, 0.78), (70000, 0.81), (80000, 0.84), (90000, 0.87), (100000, 0.89), (150000, 0.9), (200000, 0.91)]),
  (1963, [(0, 0.16), (500, 0.17), (1000, 0.18), (1500, 0.18), (2000, 0.2), (4000, 0.24), (6000, 0.27), (8000, 0.31), (10000, 0.34), (12000, 0.38), (14000, 0.41), (16000, 0.45), (18000, 0.48), (20000, 0.51), (22000, 0.54), (26000, 0.56), (32000, 0.59), (38000, 0.61), (44000, 0.64), (50000, 0.66), (60000, 0.69), (70000, 0.71), (80000, 0.74), (90000, 0.75), (100000, 0.77)]),
  (1964, [(0, 0.14), (500, 0.15), (1000, 0.16), (1500, 0.17), (2000, 0.19), (4000, 0.22), (6000, 0.25), (8000, 0.28), (10000, 0.32), (12000, 0.36), (14000, 0.39), (16000, 0.42), (18000, 0.45), (20000, 0.48), (22000, 0.5), (26000, 0.53), (32000, 0.55), (38000, 0.58), (44000, 0.6), (50000, 0.62), (60000, 0.64), (70000, 0.66), (80000, 0.68), (90000, 0.69), (100000, 0.7)]),
  (1965, [(0, 0.14), (500, 0.15), (1000, 0.16), (1500, 0.17), (2000, 0.19), (4000, 0.22), (6000, 0.25), (8000, 0.28), (10000, 0.32), (12000, 0.36), (14000, 0.39), (16000, 0.42), (18000, 0.45), (20000, 0.48), (22000, 0.5), (26000, 0.53), (32000, 0.55), (38000, 0.58), (44000, 0.6), (50000, 0.62), (60000, 0.64), (70000, 0.66), (80000, 0.68), (90000, 0.69), (100000, 0.7)]),
  (1966, [(0, 0.14), (500, 0.15), (1000, 0.16), (1500, 0.17), (2000, 0.19), (4000, 0.22), (6000, 0.25), (8000, 0.28), (10000, 0.32), (12000, 0.36), (14000, 0.39), (16000, 0.42), (18000, 0.45), (20000, 0.48), (22000, 0.5), (26000, 0.53), (32000, 0.55), (38000, 0.58), (44000, 0.6), (50000, 0.62), (60000, 0.64), (70000, 0.66), (80000, 0.68), (90000, 0.69), (100000, 0.7)]),
  (1967, [(0, 0.14), (500, 0.15), (1000, 0.16), (1500, 0.17), (2000, 0.19), (4000, 0.22), (6000, 0.25), (8000, 0.28), (10000, 0.32), (12000, 0.36), (14000, 0.39), (16000, 0.42), (18000, 0.45), (20000, 0.48), (22000, 0.5), (26000, 0.53), (32000, 0.55), (38000, 0.58), (44000, 0.6), (50000, 0.62), (60000, 0.64), (70000, 0.66), (80000, 0.68), (90000, 0.69), (100000, 0.7)]),
  (1968, [(0, 0.14), (500, 0.15), (1000, 0.16), (1500, 0.17), (2000, 0.19), (4000, 0.22), (6000, 0.25), (8000, 0.28), (10000, 0.32), (12000, 0.36), (14000, 0.39), (16000, 0.42), (18000, 0.45), (20000, 0.48), (22000, 0.5), (26000, 0.53), (32000, 0.55), (38000, 0.58), (44000, 0.6), (50000, 0.62), (60000, 0.64), (70000, 0.66), (80000, 0.68), (90000, 0.69), (100000, 0.7)]),
  (1969, [(0, 0.14), (500, 0.15), (1000, 0.16), (1500, 0.17), (2000, 0.19), (4000, 0.22), (6000, 0.25), (8000, 0.28), (10000, 0.32), (12000, 0.36), (14000, 0.39), (16000, 0.42), (18000, 0.45), (20000, 0.48), (22000, 0.5), (26000, 0.53), (32000, 0.55), (38000, 0.58), (44000, 0.6), (50000, 0.62), (60000, 0.64), (70000, 0.66), (80000, 0.68), (90000, 0.69), (100000, 0.7)]),
  (1970, [(0, 0.14), (500, 0.15), (1000, 0.16), (1500, 0.17), (2000, 0.19), (4000, 0.21), (6000, 0.24), (8000, 0.25), (10000, 0.27), (12000, 0.29), (14000, 0.31), (16000, 0.34), (18000, 0.36), (20000, 0.38), (22000, 0.4), (26000, 0.45), (32000, 0.5), (38000, 0.55), (44000, 0.6), (50000, 0.62), (60000, 0.64), (70000, 0.66), (80000, 0.68), (90000, 0.69), (100000, 0.7)]),
  (1971, [(0, 0.14), (500, 0.15), (1000, 0.16), (1500, 0.17), (2000, 0.19), (4000, 0.21), (6000, 0.24), (8000, 0.25), (10000, 0.27), (12000, 0.29), (14000, 0.31), (16000, 0.34), (18000, 0.36), (20000, 0.38), (22000, 0.4), (26000, 0.45), (32000, 0.5), (38000, 0.55), (44000, 0.6), (50000, 0.62), (60000, 0.64), (70000, 0.66), (80000, 0.68), (90000, 0.69), (100000, 0.7)]),
  (1972, [(0, 0.14), (500, 0.15), (1000, 0.16), (1500, 0.17), (2000, 0.19), (4000, 0.21), (6000, 0.24), (8000, 0.25), (10000, 0.27), (12000, 0.29), (14000, 0.31), (16000, 0.34), (18000, 0.36), (20000, 0.38), (22000, 0.4), (26000, 0.45), (32000, 0.5), (38000, 0.55), (44000, 0.6), (50000, 0.62), (60000, 0.64), (70000, 0.66), (80000, 0.68), (90000, 0.69), (100000, 0.7)]),
  (1973, [(0, 0.14), (500, 0.15), (1000, 0.16), (1500, 0.17), (2000, 0.19), (4000, 0.21), (6000, 0.24), (8000, 0.25), (10000, 0.27), (12000, 0.29), (14000, 0.31), (16000, 0.34), (18000, 0.36), (20000, 0.38), (22000, 0.4), (26000, 0.45), (32000, 0.5), (38000, 0.55), (44000, 0.6), (50000, 0.62), (60000, 0.64), (70000, 0.66), (80000, 0.68), (90000, 0.69), (100000, 0.7)]),
  (1974, [(0, 0.14), (500, 0.15), (1000, 0.16), (1500, 0.17), (2000, 0.19), (4000, 0.21), (6000, 0.24), (8000, 0.25), (10000, 0.27), (12000, 0.29), (14000, 0.31), (16000, 0.34), (18000, 0.36), (20000, 0.38), (22000, 0.4), (26000, 0.45), (32000, 0.5), (38000, 0.55), (44000, 0.6), (50000, 0.62), (60000, 0.64), (70000, 0.66), (80000, 0.68), (90000, 0.69), (100000, 0.7)]),
  (1975, [(0, 0.14), (500, 0.15), (1000, 0.16), (1500, 0.17), (2000, 0.19), (4000, 0.21), (6000, 0.24), (8000, 0.25), (10000, 0.27), (12000, 0.29), (14000, 0.31), (16000, 0.34), (18000, 0.36), (20000, 0.38), (22000, 0.4), (26000, 0.45), (32000, 0.5), (38000, 0.55), (44000, 0.6), (50000, 0.62), (60000, 0.64), (70000, 0.66), (80000, 0.68), (90000, 0.69), (100000, 0.7)]),
  (1976, [(0, 0.14), (500, 0.15), (1000, 0.16), (1500, 0.17), (2000, 0.19), (4000, 0.21), (6000, 0.24), (8000, 0.25), (10000, 0.27), (12000, 0.29), (14000, 0.31), (16000, 0.34), (18000, 0.36), (20000, 0.38), (22000, 0.4), (26000, 0.45), (32000, 0.5), (38000, 0.55), (44000, 0.6), (50000, 0.62), (60000, 0.64), (70000, 0.66), (80000, 0.68), (90000, 0.69), (100000, 0.7)]),
  (1977, [(0, 0.14), (500, 0.15), (1000, 0.16), (1500, 0.17), (2000, 0.19), (4000, 0.21), (6000, 0.24), (8000, 0.25), (10000, 0.27), (12000, 0.29), (14000, 0.31), (16000, 0.34), (18000, 0.36), (20000, 0.38), (22000, 0.4), (26000, 0.45), (32000, 0.5), (38000, 0.55), (44000, 0.6), (50000, 0.62), (60000, 0.64), (70000, 0.66), (80000, 0.68), (90000, 0.69), (100000, 0.7)]),
  (1978, [(0, 0.14), (1100, 0.16), (2100, 0.18), (4200, 0.19), (6200, 0.21), (8500, 0.24), (10600, 0.26), (12700, 0.3), (15900, 0.34), (21200, 0.39), (26500, 0.44), (31800, 0.49), (39200, 0.55), (53000, 0.63), (79500, 0.68), (106000, 0.7)]),
  (1979, [(0, 0.14), (1100, 0.16), (2100, 0.18), (4200, 0.19), (6200, 0.21), (8500, 0.24), (10600, 0.26), (12700, 0.3), (15900, 0.34), (21200, 0.39), (26500, 0.44), (31800, 0.49), (39200, 0.55), (53000, 0.63), (79500, 0.68), (106000, 0.7)]),
  (1980, [(0, 0.14), (1100, 0.16), (2100, 0.18), (4200, 0.19), (6200, 0.21), (8500, 0.24), (10600, 0.26), (12700, 0.3), (15900, 0.34), (21200, 0.39), (26500, 0.44), (31800, 0.49), (39200, 0.55), (53000, 0.63), (79500, 0.68), (106000, 0.7)]),
  (1981, [(0, 0.12), (1100, 0.14), (2100, 0.16), (4200, 0.17), (6200, 0.19), (8500, 0.22), (10600, 0.23), (12700, 0.27), (15900, 0.31), (21200, 0.35), (26500, 0.4), (31800, 0.44), (39200, 0.5)]),
  (1982, [(0, 0.11), (1100, 0.13), (2100, 0.15), (6200, 0.17), (8500, 0.19), (10600, 0.21), (12700, 0.24), (15900, 0.28), (21200, 0.32), (26500, 0.36), (31800, 0.4), (39200, 0.45), (53000, 0.5)]),
  (1983, [(0, 0.11), (1100, 0.12), (2100, 0.14), (4200, 0.15), (6200, 0.16), (8500, 0.18), (10600, 0.2), (12700, 0.23), (15900, 0.26), (21200, 0.3), (26500, 0.34), (31800, 0.38), (39200, 0.42), (53000, 0.48), (79500, 0.5)]),
  (1984, [(0, 0.11), (1150, 0.12), (2190, 0.14), (4370, 0.15), (6460, 0.16), (8850, 0.18), (11040, 0.2), (13220, 0.23), (16550, 0.26), (22070, 0.3), (27580, 0.34), (33100, 0.38), (40800, 0.42), (55160, 0.48), (82740, 0.5)]),
  (1985, [(0, 0.11), (1190, 0.12), (2270, 0.14), (4530, 0.15), (6690, 0.16), (9170, 0.18), (11440, 0.2), (13710, 0.23), (17160, 0.26), (22880, 0.3), (28600, 0.34), (34320, 0.38), (42300, 0.42), (57190, 0.48), (85790, 0.5)]),
  (1986, [(0, 0.11), (1230, 0.12), (2340, 0.14), (4680, 0.15), (6910, 0.16), (9460, 0.18), (11820, 0.2), (14160, 0.23), (17710, 0.26), (23610, 0.3), (29510, 0.34), (35420, 0.38), (43650, 0.42), (59000, 0.48), (88540, 0.5)]),
  (1987, [(0, 0.15), (17850, 0.28)]),
  (1988, [(0, 0.15), (18550, 0.28)]),
  (1989, [(0, 0.15), (19450, 0.28)]),
  (1990, [(0, 0.15), (20350, 0.28), (49300, 0.31)]),
  (1991, [(0, 0.15), (21450, 0.28), (51900, 0.31)]),
  (1992, [(0, 0.15), (22100, 0.28), (53500, 0.31)]),
  (1993, [(0, 0.15), (22750, 0.28), (55100, 0.31), (115000, 0.36), (250000, 0.396)]),
  (1994, [(0, 0.15), (23350, 0.28), (56550, 0.31), (117950, 0.36), (256500, 0.396)]),
  (1995, [(0, 0.15), (23350, 0.28), (56550, 0.31), (117950, 0.36), (256500, 0.396)]),
  (1996, [(0, 0.15), (24000, 0.28), (58150, 0.31), (121300, 0.36), (263750, 0.396)]),
  (1997, [(0, 0.15), (24650, 0.28), (59750, 0.31), (124650, 0.36), (271050, 0.396)]),
  (1998, [(0, 0.15), (25350, 0.28), (61400, 0.31), (128100, 0.36), (278450, 0.396)]),
  (1999, [(0, 0.15), (25750, 0.28), (62450, 0.31), (130250, 0.36), (283150, 0.396)]),
  (2000, [(0, 0.15), (26250, 0.28), (63550, 0.31), (132600, 0.36), (288350, 0.396)]),
  (2001, [(0, 0.1), (6000, 0.15), (27050, 0.275), (65550, 0.305), (136750, 0.355), (297350, 0.391)]),
  (2002, [(0, 0.1), (6000, 0.15), (27950, 0.27), (67700, 0.3), (141250, 0.35), (307050, 0.386)]),
  (2003, [(0, 0.1), (7000, 0.15), (28400, 0.25), (68800, 0.28), (143500, 0.33), (311950, 0.35)]),
  (2004, [(0, 0.1), (7150, 0.15), (29050, 0.25), (70350, 0.28), (146750, 0.33), (319100, 0.35)]),
  (2005, [(0, 0.1), (7300, 0.15), (29700, 0.25), (71950, 0.28), (150150, 0.33), (326450, 0.35)]),
  (2006, [(0, 0.1), (7550, 0.15), (30650, 0.25), (74200, 0.28), (154800, 0.33), (336550, 0.35)]),
  (2007, [(0, 0.1), (7825, 0.15), (31850, 0.25), (77100, 0.28), (160850, 0.33), (349700, 0.35)]),
  (2008, [(0, 0.1), (8025, 0.15), (32550, 0.25), (78850, 0.28), (164550, 0.33), (357700, 0.35)]),
  (2009, [(0, 0.1), (8350, 0.15), (33950, 0.25), (82250, 0.28), (171550, 0.33), (372950, 0.35)]),
  (2010, [(0, 0.1), (8375, 0.15), (34000, 0.25), (82400, 0.28), (171850, 0.33), (373650, 0.35)]),
  (2011, [(0, 0.1), (8500, 0.15), (34500, 0.25), (83600, 0.28), (174400, 0.33), (379150, 0.35)]),
  (2012, [(0, 0.1), (8700, 0.15), (35350, 0.25), (85650, 0.28), (178650, 0.33), (388350, 0.35)]),
  (2013, [(0, 0.1), (8925, 0.15), (36250, 0.25), (87850, 0.28), (183250, 0.33), (398350, 0.35), (400000, 0.396)]),
  (2014, [(0, 0.1), (9075, 0.15), (36900, 0.25), (89350, 0.28), (186350, 0.33), (405100, 0.35), (406750, 0.396)]),
  (2015, [(0, 0.1), (9225, 0.15), (37450, 0.25), (90750, 0.28), (189300, 0.33), (411500, 0.35), (413200, 0.396)]),
  (2016, [(0, 0.1), (9275, 0.15), (37650, 0.25), (91150, 0.28), (190150, 0.33), (413350, 0.35), (415050, 0.396)]),
  (2017, [(0, 0.1), (9325, 0.15), (37950, 0.25), (91900, 0.28), (191650, 0.33), (416700, 0.35), (418400, 0.396)]),
  (2018, [(0, 0.1), (9525, 0.12), (38700, 0.22), (82500, 0.24), (157500, 0.32), (200000, 0.35), (500000, 0.37)]),
  (2019, [(0, 0.1), (9700, 0.12), (39475, 0.22), (84200, 0.24), (160725, 0.32), (204100, 0.35), (510300, 0.37)]),
  (2020, [(0, 0.1), (9875, 0.12), (40125, 0.22), (85525, 0.24), (163300, 0.32), (207350, 0.35), (518400, 0.37)]),
  (2021, [(0, 0.1), (9950, 0.12), (40525, 0.22), (86375, 0.24), (164925, 0.32), (209425, 0.35), (523600, 0.37)]),
  (2022, [(0, 0.1), (10275, 0.12), (41775, 0.22), (89075, 0.24), (170050, 0.32), (215950, 0.35), (539900, 0.37)]),
  (2023, [(0, 0.1), (11000, 0.12), (44725, 0.22), (95375, 0.24), (182100, 0.32), (231250, 0.35), (578125, 0.37)]),
  (2024, [(0, 0.1), (11600, 0.12), (47150, 0.22), (100525, 0.24), (191950, 0.32), (243725, 0.35), (609350, 0.37)]),
  (2025, [(0, 0.1), (11925, 0.12), (48475, 0.22), (103350, 0.24), (197300, 0.32), (250525, 0.35), (626350, 0.37)])
]

/-- Table `STANDARD_DEDUCTION` (single filer), by year. -/
def STANDARD_DEDUCTION : List (Int × Rat) := [
  (1961, 1000), (1962, 1000), (1963, 1000), (1964, 1000), (1965, 1000),
  (1966, 1000), (1967, 1000), (1968, 1000), (1969, 1000), (1970, 1100),
  (1971, 1050), (1972, 1300), (1973, 1300), (1974, 1300), (1975, 1600),
  (1976, 1700), (1977, 2200), (1978, 2300), (1979, 2300), (1980, 2300),
  (1981, 2300), (1982, 2300), (1983, 2300), (1984, 2390), (1985, 2480),
  (1986, 2560), (1987, 2540), (1988, 3000), (1989, 3100), (1990, 3250),
  (1991, 3400), (1992, 3600), (1993, 3700), (1994, 3800), (1995, 3900),
  (1996, 4000), (1997, 4150), (1998, 4250), (1999, 4300), (2000, 4400),
  (2001, 4550), (2002, 4700), (2003, 4750), (2004, 4850), (2005, 5000),
  (2006, 5150), (2007, 5350), (2008, 5450), (2009, 5700), (2010, 5700),
  (2011, 5800), (2012, 5950), (2013, 6100), (2014, 6200), (2015, 6300),
  (2016, 6300), (2017, 6350), (2018, 12000), (2019, 12200), (2020, 12400),
  (2021, 12550), (2022, 12950), (2023, 13850), (2024, 14600), (2025, 15000)
]

/-- Table `PERSONAL_EXEMPTION` (single filer), by year. -/
def PERSONAL_EXEMPTION : List (Int × Rat) := [
  (1961, 600), (1962, 600), (1963, 600), (1964, 600), (1965, 600),
  (1966, 600), (1967, 600), (1968, 600), (1969, 600), (1970, 625),
  (1971, 675), (1972, 750), (1973, 750), (1974, 750), (1975, 750),
  (1976, 750), (1977, 750), (1978, 750), (1979, 1000), (1980, 1000),
  (1981, 1000), (1982, 1000), (1983, 1000), (1984, 1000), (1985, 1040),
  (1986, 1080), (1987, 1900), (1988, 1950), (1989, 2000), (1990, 2050),
  (1991, 2150), (1992, 2300), (1993, 2350), (1994, 2450), (1995, 2500),
  (1996, 2550), (1997, 2650), (1998, 2700), (1999, 2750), (2000, 2800),
  (2001, 2900), (2002, 3000), (2003, 3050), (2004, 3100), (2005, 3200),
  (2006, 3300), (2007, 3400), (2008, 3500), (2009, 3650), (2010, 3650),
  (2011, 3700), (2012, 3800), (2013, 3900), (2014, 3950), (2015, 4000),
  (2016, 4050), (2017, 4050), (2018, 0), (2019, 0), (2020, 0),
  (2021, 0), (2022, 0), (2023, 0), (2024, 0), (2025, 0)
]

/-- Table `SS_WAGE_BASE`: Social Security wage base, by year. -/
def SS_WAGE_BASE : List (Int × Rat) := [
  (1961, 4800), (1962, 4800), (1963, 4800), (1964, 4800), (1965, 4800),
  (1966, 6600), (1967, 6600), (1968, 7800), (1969, 7800), (1970, 7800),
  (1971, 7800), (1972, 9000), (1973, 10800), (1974, 13200), (1975, 14100),
  (1976, 15300), (1977, 16500), (1978, 17700), (1979, 22900), (1980, 25900),
  (1981, 29700), (1982, 32400), (1983, 35700), (1984, 37800), (1985, 39600),
  (1986, 42000), (1987, 43800), (1988, 45000), (1989, 48000), (1990, 51300),
  (1991, 53400), (1992, 55500), (1993, 57600), (1994, 60600), (1995, 61200),
  (1996, 62700), (1997, 65400), (1998, 68400), (1999, 72600), (2000, 76200),
  (2001, 80400), (2002, 84900), (2003, 87000), (2004, 87900), (2005, 90000),
  (2006, 94200), (2007, 97500), (2008, 102000), (2009, 106800), (2010, 106800),
  (2011, 106800), (2012, 110100), (2013, 113700), (2014, 117000), (2015, 118500),
  (2016, 118500), (2017, 127200), (2018, 128400), (2019, 132900), (2020, 137700),
  (2021, 142800), (2022, 147000), (2023, 160200), (2024, 168600), (2025, 176100)
]

/-- Table `SS_RATE`: employee Social Security (OASDI) rate by year.  The source
builds this dict from the 1961-1994 literals, then a loop filling
1995-2025 with 0.062, then overwrites 2011 and 2012 with 0.042 (payroll
tax holiday).  First match wins in `lookupD`, so the two overrides are
placed at the front. -/
def SS_RATE : List (Int × Rat) :=
  [(2011, 0.042), (2012, 0.042)] ++
  [(1961, 0.03), (1962, 0.03125), (1963, 0.03625), (1964, 0.03625), (1965, 0.03625),
   (1966, 0.0385), (1967, 0.039), (1968, 0.038), (1969, 0.042), (1970, 0.042),
   (1971, 0.046), (1972, 0.046), (1973, 0.0485), (1974, 0.0495), (1975, 0.0495),
   (1976, 0.0495), (1977, 0.0495), (1978, 0.0505), (1979, 0.0508), (1980, 0.0508),
   (1981, 0.0535), (1982, 0.054), (1983, 0.054), (1984, 0.057), (1985, 0.057),
   (1986, 0.057), (1987, 0.057), (1988, 0.0606), (1989, 0.0606), (1990, 0.062),
   (1991, 0.062), (1992, 0.062), (1993, 0.062), (1994, 0.062)] ++
  (List.range 31).map (fun k => ((1995 : Int) + k, 0.062))

/-- Table `MEDICARE_RATE`: employee Medicare (HI) rate by year: 1961-1994
literals, then a loop filling 1995-2025 with 0.0145. -/
def MEDICARE_RATE : List (Int × Rat) :=
  [(1961, 0.0), (1962, 0.0), (1963, 0.0), (1964, 0.0), (1965, 0.0),
   (1966, 0.0035), (1967, 0.005), (1968, 0.006), (1969, 0.006), (1970, 0.006),
   (1971, 0.006), (1972, 0.006), (1973, 0.01), (1974, 0.009), (1975, 0.009),
   (1976, 0.009), (1977, 0.009), (1978, 0.01), (1979, 0.0105), (1980, 0.0105),
   (1981, 0.013), (1982, 0.013), (1983, 0.013), (1984, 0.013), (1985, 0.0135),
   (1986, 0.0145), (1987, 0.0145), (1988, 0.0145), (1989, 0.0145), (1990, 0.0145),
   (1991, 0.0145), (1992, 0.0145), (1993, 0.0145), (1994, 0.0145)] ++
  (List.range 31).map (fun k => ((1995 : Int) + k, 0.0145))

/-- Medicare uncapped from this year onward (before it, capped at the SS
wage base). -/
def MEDICARE_UNCAPPED_START_YEAR : Int := 1994

/-- Additional Medicare Tax threshold. -/
def ADDITIONAL_MEDICARE_THRESHOLD : Rat := 200000

/-- Additional Medicare Tax rate. -/
def ADDITIONAL_MEDICARE_RATE : Rat := 0.009

/-- Additional Medicare Tax start year. -/
def ADDITIONAL_MEDICARE_START_YEAR : Int := 2013

/-- Default average state income tax rate. -/
def DEFAULT_STATE_RATE : Rat := 0.05

/-- The value `MIN_TAX_YEAR = min(FEDERAL_BRACKETS.keys())`. -/
def MIN_TAX_YEAR : Int := 1961

/-- The value `MAX_TAX_YEAR = max(FEDERAL_BRACKETS.keys())`. -/
def MAX_TAX_YEAR : Int := 2025

/-- Clamping `year = max(MIN_TAX_YEAR, min(MAX_TAX_YEAR, year))`: the year-clamping
step shared by all three tax functions. -/
def clampYear (year : Int) : Int := max MIN_TAX_YEAR (min MAX_TAX_YEAR year)

/- ═══════════════════════════════════════════════════════════════════════
   Tax computation (`compute_federal_tax`, `compute_fica`,
   `compute_state_tax`, `compute_after_tax`).
   ═══════════════════════════════════════════════════════════════════════ -/

/-- The bracket loop of `compute_federal_tax`: for bracket `i` with a
successor, `bracket_income = min(taxable, next_threshold) - threshold`;
for the last bracket, `taxable - threshold`; add `bracket_income * rate`
when positive; break as soon as `taxable <= next_threshold`. -/
def bracketTax (taxable : Rat) : List (Rat × Rat) → Rat
  | [] => 0
  | [(threshold, rate)] =>
      let bracket_income := taxable - threshold
      if 0 < bracket_income then bracket_income * rate else 0
  | (threshold, rate) :: (t2, r2) :: rest =>
      let bracket_income := min taxable t2 - threshold
      let tax := if 0 < bracket_income then bracket_income * rate else 0
      if taxable ≤ t2 then tax else tax + bracketTax taxable ((t2, r2) :: rest)

/-- Function `compute_federal_tax(gross_income, year)`: federal income tax for a
single filer (standard deduction + personal exemption, then bracket
rates). -/
def compute_federal_tax (gross_income : Rat) (year : Int) : Rat :=
  if gross_income ≤ 0 then 0
  else
    let y := clampYear year
    let std_ded := lookupD STANDARD_DEDUCTION y 0
    let pers_exempt := lookupD PERSONAL_EXEMPTION y 0
    let taxable := max 0 (gross_income - std_ded - pers_exempt)
    if taxable ≤ 0 then 0
    else bracketTax taxable (lookupD FEDERAL_BRACKETS y [])

/-- Function `compute_fica(gross_income, year)`: employee share of Social Security
plus Medicare, with the pre-1994 Medicare cap and the 2013+ additional
Medicare surtax. -/
def compute_fica (gross_income : Rat) (year : Int) : Rat :=
  if gross_income ≤ 0 then 0
  else
    let y := clampYear year
    let ss_income := min gross_income (lookupD SS_WAGE_BASE y 0)
    let ss_tax := ss_income * lookupD SS_RATE y 0
    let med_rate := lookupD MEDICARE_RATE y 0
    let medicare_base :=
      if MEDICARE_UNCAPPED_START_YEAR ≤ y then gross_income * med_rate
      else min gross_income (lookupD SS_WAGE_BASE y 0) * med_rate
    let medicare_tax :=
      if ADDITIONAL_MEDICARE_START_YEAR ≤ y ∧ ADDITIONAL_MEDICARE_THRESHOLD < gross_income
      then medicare_base + (gross_income - ADDITIONAL_MEDICARE_THRESHOLD) * ADDITIONAL_MEDICARE_RATE
      else medicare_base
    ss_tax + medicare_tax

/-- The Social-Security-plus-Medicare part of `compute_fica` without the
additional Medicare surtax: the claim C5 compares `compute_fica` against
this "base SS-plus-Medicare amount". -/
def ficaBase (gross_income : Rat) (year : Int) : Rat :=
  if gross_income ≤ 0 then 0
  else
    let y := clampYear year
    let ss_income := min gross_income (lookupD SS_WAGE_BASE y 0)
    let ss_tax := ss_income * lookupD SS_RATE y 0
    let med_rate := lookupD MEDICARE_RATE y 0
    let medicare_base :=
      if MEDICARE_UNCAPPED_START_YEAR ≤ y then gross_income * med_rate
      else min gross_income (lookupD SS_WAGE_BASE y 0) * med_rate
    ss_tax + medicare_base

/-- Function `compute_state_tax(gross_income, year, rate)`: flat effective rate on
`max(0, income - federal standard deduction)`. -/
def compute_state_tax (gross_income : Rat) (year : Int) (rate : Rat) : Rat :=
  if gross_income ≤ 0 ∨ rate ≤ 0 then 0
  else
    let y := clampYear year
    let taxable := max 0 (gross_income - lookupD STANDARD_DEDUCTION y 0)
    taxable * rate

/-- The tax detail dict returned by `compute_after_tax`.  In the
`gross_income <= 0` short-circuit the source returns
`{'federal': 0, 'fica': 0, 'state': 0, 'total': 0}` with NO
`effective_rate` key; `effective_rate` is therefore an `Option`, `none`
meaning the key is absent. -/
structure TaxDetail where
  federal : Rat
  fica : Rat
  state : Rat
  total : Rat
  effective_rate : Option Rat
deriving DecidableEq

/-- Function `compute_after_tax(gross_income, year, state_rate)`: returns
`(after_tax_income, tax_detail_dict)`. -/
def compute_after_tax (gross_income : Rat) (year : Int) (state_rate : Rat) :
    Rat × TaxDetail :=
  if gross_income ≤ 0 then (gross_income, ⟨0, 0, 0, 0, none⟩)
  else
    let federal := compute_federal_tax gross_income year
    let fica := compute_fica gross_income year
    let state := compute_state_tax gross_income year state_rate
    let total_tax := federal + fica + state
    let after_tax := max 0 (gross_income - total_tax)
    (after_tax,
      ⟨round2 federal, round2 fica, round2 state, round2 total_tax,
       some (if 0 < gross_income then round4 (total_tax / gross_income) else 0)⟩)

/- ═══════════════════════════════════════════════════════════════════════
   Weighted percentile engine (`process_income.py`).
   ═══════════════════════════════════════════════════════════════════════ -/

/-- Order on index-tagged `(value, weight)` observations: by value, ties
broken by original index.  `np.argsort(values)` sorts the indices by
value with an unspecified order among tied values; we fix the stable
order (ties by original position). -/
def keyLE (a b : Nat × (Rat × Rat)) : Prop :=
  a.2.1 < b.2.1 ∨ (a.2.1 = b.2.1 ∧ a.1 ≤ b.1)

instance : DecidableRel keyLE := fun a b =>
  inferInstanceAs (Decidable (_ ∨ _))

instance : IsTotal (Nat × (Rat × Rat)) keyLE where
  total a b := by
    rcases lt_trichotomy a.2.1 b.2.1 with h | h | h
    · exact Or.inl (Or.inl h)
    · rcases Nat.le_total a.1 b.1 with h2 | h2
      · exact Or.inl (Or.inr ⟨h, h2⟩)
      · exact Or.inr (Or.inr ⟨h.symm, h2⟩)
    · exact Or.inr (Or.inl h)

instance : IsTrans (Nat × (Rat × Rat)) keyLE where
  trans a b c hab hbc := by
    rcases hab with h1 | ⟨e1, i1⟩ <;> rcases hbc with h2 | ⟨e2, i2⟩
    · exact Or.inl (h1.trans h2)
    · exact Or.inl (e2 ▸ h1)
    · exact Or.inl (e1 ▸ h2)
    · exact Or.inr ⟨e1.trans e2, i1.trans i2⟩

/-- Tag each element of a list with its position, starting at `k`. -/
def idxFrom : Nat → List (Rat × Rat) → List (Nat × (Rat × Rat))
  | _, [] => []
  | k, x :: t => (k, x) :: idxFrom (k + 1) t

/-- The sorted `(value, weight)` pairs: `sorted_vals = values[idx]`
zipped with `sorted_wts = weights[idx]` for `idx = np.argsort(values)`.
When `len(weights) > len(values)` the index array only reaches positions
below `len(values)`, which `zip` models by truncation. -/
def sortedPairs (values weights : List Rat) : List (Rat × Rat) :=
  ((idxFrom 0 (values.zip weights)).insertionSort keyLE).map Prod.snd

/-- The `searchsorted`-and-interpolate step of `weighted_percentile`:
walk the sorted observations keeping the previous cumulative weight and
value; at the first cumulative weight `>= target`, interpolate (the
`w_above == w_below` guard of the source returns the upper value, though
it is unreachable when `target > cum_wt[0]`). -/
def interpLoop (target : Rat) : Rat → Rat → List (Rat × Rat) → Rat
  | _, vprev, [] => vprev
  | cprev, vprev, (v, w) :: tl =>
      let c := cprev + w
      if target ≤ c then
        if c = cprev then v
        else vprev + (target - cprev) / (c - cprev) * (v - vprev)
      else interpLoop target c v tl

/-- The value of the last observation (`sorted_vals[-1]`). -/
def lastVal : Rat → List (Rat × Rat) → Rat
  | v0, [] => v0
  | _, (v, _) :: tl => lastVal v tl

/-- The body of `weighted_percentile` after sorting: cumulative weights,
target `percentile / 100 * total_wt`, the two boundary checks, then
interpolation. -/
def wpCore : List (Rat × Rat) → Rat → Rat
  | [], _ => 0
  | (v0, w0) :: tl, percentile =>
      let total_wt := w0 + (tl.map Prod.snd).sum
      let target := percentile / 100 * total_wt
      if target ≤ w0 then v0
      else if total_wt ≤ target then lastVal v0 tl
      else interpLoop target w0 v0 tl

/-- Function `weighted_percentile(values, weights, percentile)`.

The two error cases mirror the NumPy behaviour on malformed input:
`cum_wt[-1]` raises on an empty array, and the fancy index
`weights[idx]` raises exactly when some sort index is out of bounds for
`weights`, that is when `len(weights) < len(values)`. -/
def weighted_percentile (values weights : List Rat) (percentile : Rat) :
    Except String Rat :=
  if values.length = 0 then
    .error "IndexError: index -1 is out of bounds"
  else if weights.length < values.length then
    .error "IndexError: index out of bounds in weights[idx]"
  else
    .ok (wpCore (sortedPairs values weights) percentile)

/-- Function `weighted_mean(values, weights) = np.average(values, weights=weights)`.
(`np.average` raises on zero total weight; division by zero yields the
junk value 0 here, and every caller in the pipeline guarantees a
positive total weight.) -/
def weighted_mean (values weights : List Rat) : Rat :=
  ((values.zip weights).map (fun q => q.1 * q.2)).sum / weights.sum

/- ═══════════════════════════════════════════════════════════════════════
   Distribution builder (`compute_percentiles` in `process_income.py`).
   ═══════════════════════════════════════════════════════════════════════ -/

/-- One microdata row with the columns the builder uses. -/
structure Obs where
  AGE : Int
  YEAR : Int
  INCTOT : Rat
  ASECWT : Rat
deriving DecidableEq

/-- The list `PERCENTILES = [1, 5, 10, 25, 50, 75, 90, 95, 99]`. -/
def PERCENTILES : List Rat := [1, 5, 10, 25, 50, 75, 90, 95, 99]

/-- The per-cell statistics record emitted by the builder.  The source
stores the percentile values under keys `p1`, ..., `p99`; here they are
a list of `(percentile, value)` pairs. -/
structure CellStats where
  n_samples : Nat
  est_workforce : Int
  mean : Rat
  pvals : List (Rat × Rat)
deriving DecidableEq

/-- Unwrap a percentile result inside the builder.  An `error` would be a
raised exception propagating out of `compute_percentiles`; the builder
only calls this with at least 25 observations and equal-length lists, so
the error case is unreachable. -/
def okD (e : Except String Rat) : Rat := match e with
  | .ok q => q
  | .error _ => 0

/-- The body of the inner loop of `compute_percentiles` for one
`(survey_year, age)` cell: `None` when the cell is omitted. -/
def computeCell (df : List Obs) (survey_year age : Int) : Option CellStats :=
  let year_df := df.filter (fun o => decide (o.YEAR = survey_year))
  let age_df := year_df.filter (fun o => decide (o.AGE = age))
  if age_df.length < 25 then none
  else
    -- valid = weights > 0; values = values[valid]; weights = weights[valid]
    let pairs := age_df.filter (fun o => decide (0 < o.ASECWT))
    let values := pairs.map Obs.INCTOT
    let weights := pairs.map Obs.ASECWT
    if values.length < 25 then none
    else some
      { n_samples := values.length
        est_workforce := ratTrunc weights.sum
        mean := round2 (weighted_mean values weights)
        pvals := PERCENTILES.map
          (fun p => (p, round2 (okD (weighted_percentile values weights p)))) }

/-- Function `detect_income_year(survey_year) = survey_year - 1`. -/
def detect_income_year (survey_year : Int) : Int := survey_year - 1

/-- Function `compute_percentiles(df, age_min, age_max)`: for each survey year in
sorted order and each age in `[age_min, age_max]`, emit the cell when it
passes the minimum-sample gates; results are keyed by income year
(survey year minus one). -/
def compute_percentiles (df : List Obs) (age_min age_max : Int) :
    List (Int × List (Int × CellStats)) :=
  let years := ((df.map Obs.YEAR).dedup).insertionSort (· ≤ ·)
  let ages := (List.range (age_max + 1 - age_min).toNat).map (fun k => age_min + (k : Int))
  years.map (fun sy =>
    (detect_income_year sy,
     ages.filterMap (fun a => (computeCell df sy a).map (fun st => (a, st)))))

/- ═══════════════════════════════════════════════════════════════════════
   After-tax annotator (`add_after_tax_to_data` in `add_after_tax.py`).
   ═══════════════════════════════════════════════════════════════════════ -/

/-- One year-times-age record of the distribution table, restricted to
the fields `add_after_tax_to_data` reads or writes
(`INCOME_FIELDS = ['mean', 'p1', ..., 'p99']` plus the derived `at_*`
fields).  `none` models a key that is absent or `None`; any other keys
of the record dict are untouched by the annotator. -/
structure Record where
  mean : Option Rat
  p1 : Option Rat
  p5 : Option Rat
  p10 : Option Rat
  p25 : Option Rat
  p50 : Option Rat
  p75 : Option Rat
  p90 : Option Rat
  p95 : Option Rat
  p99 : Option Rat
  at_mean : Option Rat
  at_p1 : Option Rat
  at_p5 : Option Rat
  at_p10 : Option Rat
  at_p25 : Option Rat
  at_p50 : Option Rat
  at_p75 : Option Rat
  at_p90 : Option Rat
  at_p95 : Option Rat
  at_p99 : Option Rat
  at_effective_rate_p50 : Option Rat
deriving DecidableEq

/-- For one income field: if the gross field is present and not `None`,
set the parallel `at_` field to `round(after_tax, 2)`; otherwise leave
the existing `at_` field alone. -/
def atField (year : Int) (state_rate : Rat) (gross old : Option Rat) : Option Rat :=
  match gross with
  | some g => some (round2 (compute_after_tax g year state_rate).1)
  | none => old

/-- The body of the record loop of `add_after_tax_to_data`: annotate
every income field, then store the effective rate at the median when
`p50` is present and positive. -/
def annotateRecord (year : Int) (state_rate : Rat) (r : Record) : Record :=
  { r with
    at_mean := atField year state_rate r.mean r.at_mean
    at_p1 := atField year state_rate r.p1 r.at_p1
    at_p5 := atField year state_rate r.p5 r.at_p5
    at_p10 := atField year state_rate r.p10 r.at_p10
    at_p25 := atField year state_rate r.p25 r.at_p25
    at_p50 := atField year state_rate r.p50 r.at_p50
    at_p75 := atField year state_rate r.p75 r.at_p75
    at_p90 := atField year state_rate r.p90 r.at_p90
    at_p95 := atField year state_rate r.p95 r.at_p95
    at_p99 := atField year state_rate r.p99 r.at_p99
    at_effective_rate_p50 :=
      match r.p50 with
      | some m =>
          if 0 < m then (compute_after_tax m year state_rate).2.effective_rate
          else r.at_effective_rate_p50
      | none => r.at_effective_rate_p50 }

/-- Function `add_after_tax_to_data(data, state_rate)`: annotate every record of
every year of the table in place (modelled functionally; the
`(years_processed, records_processed)` counters the source also returns
are just the lengths of the table and are irrelevant to the claims). -/
def add_after_tax_to_data (data : List (Int × List (Int × Record)))
    (state_rate : Rat) : List (Int × List (Int × Record)) :=
  data.map (fun yr =>
    (yr.1, yr.2.map (fun ar => (ar.1, annotateRecord yr.1 state_rate ar.2))))

/- ═══════════════════════════════════════════════════════════════════════
   Per-year side conditions used by the after-tax monotonicity proof.
   ═══════════════════════════════════════════════════════════════════════ -/

/-- The marginal rate the additional Medicare surtax can contribute in
year `y`. -/
def addlRateFor (y : Int) : Rat :=
  if ADDITIONAL_MEDICARE_START_YEAR ≤ y then ADDITIONAL_MEDICARE_RATE else 0

/-- A per-year Lipschitz budget for the federal bracket rates: what is
left of a total marginal rate of 1 after the FICA rates and a state rate
of `DEFAULT_STATE_RATE` are set aside. -/
def fedRateBound (y : Int) : Rat :=
  1 - (lookupD SS_RATE y 0 + lookupD MEDICARE_RATE y 0 + addlRateFor y + DEFAULT_STATE_RATE)

/-- Adjacent bracket thresholds are non-decreasing. -/
def thresholdsMono : List (Rat × Rat) → Bool
  | [] => true
  | [_] => true
  | a :: b :: t => decide (a.1 ≤ b.1) && thresholdsMono (b :: t)

/-- The per-year facts on the parameter tables that the monotonicity
proof consumes: non-negative rates, bracket thresholds non-negative and
non-decreasing, and every bracket rate within `fedRateBound`. -/
abbrev yearOK (y : Int) : Prop :=
  0 ≤ fedRateBound y ∧
  0 ≤ lookupD SS_RATE y 0 ∧
  0 ≤ lookupD MEDICARE_RATE y 0 ∧
  (∀ p ∈ lookupD FEDERAL_BRACKETS y [], 0 ≤ p.1 ∧ 0 ≤ p.2 ∧ p.2 ≤ fedRateBound y) ∧
  thresholdsMono (lookupD FEDERAL_BRACKETS y []) = true

/-- Concrete microdata used to exercise the distribution builder: 25
identical observations of age 29, survey year 2024, income 100 and
weight 1. -/
def witnessObs : List Obs := List.replicate 25 ⟨29, 2024, 100, 1⟩

/-- The cell the builder emits for `witnessObs`. -/
def witnessStats : CellStats :=
  ⟨25, 25, 100,
   [(1, 100), (5, 100), (10, 100), (25, 100), (50, 100),
    (75, 100), (90, 100), (95, 100), (99, 100)]⟩

/- ═══════════════════════════════════════════════════════════════════════
   Theorems.  First the side conditions on the parameter tables, then the
   Lipschitz lemmas behind after-tax monotonicity, then the claims.
   ═══════════════════════════════════════════════════════════════════════ -/

theorem all_years_ok : ∀ k ∈ List.range 65, yearOK (1961 + (k : Int)) := by
  with_unfolding_all decide

theorem yearOK_of_mem (y : Int) (h1 : 1961 ≤ y) (h2 : y ≤ 2025) : yearOK y := by
  have hk : (y - 1961).toNat ∈ List.range 65 := by
    simp only [List.mem_range]
    omega
  have h := all_years_ok _ hk
  have he : (1961 : Int) + ((y - 1961).toNat : Int) = y := by omega
  rwa [he] at h

theorem clampYear_mem (y : Int) : 1961 ≤ clampYear y ∧ clampYear y ≤ 2025 := by
  simp only [clampYear, MIN_TAX_YEAR, MAX_TAX_YEAR]
  omega

theorem yearOK_clamp (y : Int) : yearOK (clampYear y) :=
  yearOK_of_mem _ (clampYear_mem y).1 (clampYear_mem y).2

/-- The map `max 0` is monotone and 1-Lipschitz. -/
theorem max0_sub_le {a b : Rat} (h : a ≤ b) :
    0 ≤ max 0 b - max 0 a ∧ max 0 b - max 0 a ≤ b - a := by
  rcases le_total a 0 with ha | ha <;> rcases le_total b 0 with hb | hb <;>
    constructor <;> simp [max_eq_left, max_eq_right, ha, hb] <;> linarith

/-- The map `min · c` is monotone and 1-Lipschitz. -/
theorem min_sub_le {a b c : Rat} (h : a ≤ b) :
    0 ≤ min b c - min a c ∧ min b c - min a c ≤ b - a := by
  rcases le_total b c with hb | hb <;> rcases le_total a c with ha | ha <;>
    constructor <;> simp [min_eq_left, min_eq_right, ha, hb] <;> linarith

/-- The loop `bracketTax` is non-negative when all rates are non-negative. -/
theorem bracketTax_nonneg (x : Rat) :
    ∀ l : List (Rat × Rat), (∀ p ∈ l, 0 ≤ p.2) → 0 ≤ bracketTax x l
  | [], _ => le_refl 0
  | [(t, r)], h => by
    have hr : 0 ≤ r := h (t, r) (by simp)
    simp only [bracketTax]
    split
    · exact mul_nonneg (by linarith) hr
    · exact le_refl 0
  | (t, r) :: (t2, r2) :: rest, h => by
    have hr : 0 ≤ r := h (t, r) (by simp)
    have htail : ∀ p ∈ (t2, r2) :: rest, 0 ≤ p.2 := fun p hp => h p (List.mem_cons_of_mem _ hp)
    have hc : (0:Rat) ≤ if 0 < min x t2 - t then (min x t2 - t) * r else 0 := by
      split
      · exact mul_nonneg (by linarith) hr
      · exact le_refl 0
    simp only [bracketTax]
    split
    · exact hc
    · exact add_nonneg hc (bracketTax_nonneg x ((t2, r2) :: rest) htail)

/-- At its own first threshold, a bracket schedule collects no tax. -/
theorem bracketTax_first (t2 r2 : Rat) (rest : List (Rat × Rat))
    (hm : thresholdsMono ((t2, r2) :: rest) = true) :
    bracketTax t2 ((t2, r2) :: rest) = 0 := by
  match rest with
  | [] => simp [bracketTax]
  | (t3, r3) :: rs =>
    have h23 : t2 ≤ t3 := by
      simp only [thresholdsMono, Bool.and_eq_true, decide_eq_true_eq] at hm
      exact hm.1
    simp only [bracketTax, min_eq_left h23, if_pos h23, sub_self, lt_irrefl, if_neg]
    simp

/-- The bracket loop is `L`-Lipschitz when every rate lies in `[0, L]`
and the thresholds are non-decreasing. -/
theorem bracketTax_lipschitz (L : Rat) (hL : 0 ≤ L) :
    ∀ l : List (Rat × Rat), (∀ p ∈ l, 0 ≤ p.2 ∧ p.2 ≤ L) →
      thresholdsMono l = true → ∀ x y : Rat, x ≤ y →
      bracketTax y l - bracketTax x l ≤ L * (y - x)
  | [], _, _, x, y, hxy => by
    simp only [bracketTax]
    nlinarith
  | [(t, r)], h, _, x, y, hxy => by
    obtain ⟨hr0, hrL⟩ := h (t, r) (by simp)
    simp only [bracketTax]
    split_ifs with h1 h2 h2 <;> nlinarith
  | (t, r) :: (t2, r2) :: rest, h, hm, x, y, hxy => by
    obtain ⟨hr0, hrL⟩ := h (t, r) (by simp)
    have htail : ∀ p ∈ (t2, r2) :: rest, 0 ≤ p.2 ∧ p.2 ≤ L :=
      fun p hp => h p (List.mem_cons_of_mem _ hp)
    have hmono : t ≤ t2 ∧ thresholdsMono ((t2, r2) :: rest) = true := by
      simp only [thresholdsMono, Bool.and_eq_true, decide_eq_true_eq] at hm
      exact hm
    -- the first bracket contribution is L-Lipschitz in min · t2
    have hmin := min_sub_le (c := t2) hxy
    have hcontrib :
        (if 0 < min y t2 - t then (min y t2 - t) * r else 0) -
          (if 0 < min x t2 - t then (min x t2 - t) * r else 0) ≤
          L * (min y t2 - min x t2) := by
      have hmm : min x t2 ≤ min y t2 := by linarith [hmin.1]
      split_ifs with h1 h2 h2 <;> nlinarith
    simp only [bracketTax]
    by_cases hy2 : y ≤ t2
    · -- y ≤ t2, hence x ≤ t2: both sides break after the first bracket
      have hx2 : x ≤ t2 := hxy.trans hy2
      rw [if_pos hy2, if_pos hx2]
      have e1 : min x t2 = x := min_eq_left hx2
      have e2 : min y t2 = y := min_eq_left hy2
      rw [e1, e2] at hcontrib ⊢
      nlinarith [hcontrib]
    · by_cases hx2 : x ≤ t2
      · -- x ≤ t2 < y: first bracket saturates, tail starts contributing
        rw [if_neg hy2, if_pos hx2]
        have e1 : min x t2 = x := min_eq_left hx2
        have e2 : min y t2 = t2 := min_eq_right (by linarith [not_le.mp hy2])
        rw [e1, e2] at hcontrib ⊢
        have hzero := bracketTax_first t2 r2 rest hmono.2
        have htl := bracketTax_lipschitz L hL ((t2, r2) :: rest) htail hmono.2 t2 y
          (le_of_lt (not_le.mp hy2))
        rw [hzero] at htl
        nlinarith [hcontrib]
      · -- t2 < x ≤ y: first bracket saturated on both sides
        rw [if_neg hy2, if_neg hx2]
        have e1 : min x t2 = t2 := min_eq_right (le_of_lt (not_le.mp hx2))
        have e2 : min y t2 = t2 := min_eq_right (by linarith [not_le.mp hx2])
        rw [e1, e2] at hcontrib ⊢
        have htl := bracketTax_lipschitz L hL ((t2, r2) :: rest) htail hmono.2 x y hxy
        nlinarith [hcontrib]

/-- A bracket schedule with non-negative thresholds collects no tax on a
taxable income of zero. -/
theorem bracketTax_zero :
    ∀ l : List (Rat × Rat), (∀ p ∈ l, 0 ≤ p.1) → bracketTax 0 l = 0
  | [], _ => rfl
  | [(t, r)], h => by
    have ht : 0 ≤ t := h (t, r) (by simp)
    simp only [bracketTax, zero_sub, if_neg (by linarith : ¬(0:Rat) < -t)]
  | (t, r) :: (t2, r2) :: rest, h => by
    have ht : 0 ≤ t := h (t, r) (by simp)
    have ht2 : 0 ≤ t2 := h (t2, r2) (by simp)
    simp only [bracketTax, min_eq_left ht2, zero_sub,
      if_neg (by linarith : ¬(0:Rat) < -t), if_pos ht2]

/-- Federal: `compute_federal_tax` changes by at most `fedRateBound` per dollar of
gross income (for positive incomes). -/
theorem fed_lipschitz (yr : Int) {x y : Rat} (hx : 0 < x) (hxy : x ≤ y) :
    compute_federal_tax y yr - compute_federal_tax x yr ≤
      fedRateBound (clampYear yr) * (y - x) := by
  obtain ⟨hb0, _, _, hbr, hbm⟩ := yearOK_clamp yr
  have hthr : ∀ p ∈ lookupD FEDERAL_BRACKETS (clampYear yr) [], 0 ≤ p.1 :=
    fun p hp => (hbr p hp).1
  have hrates : ∀ p ∈ lookupD FEDERAL_BRACKETS (clampYear yr) [],
      0 ≤ p.2 ∧ p.2 ≤ fedRateBound (clampYear yr) :=
    fun p hp => ⟨(hbr p hp).2.1, (hbr p hp).2.2⟩
  have hform : ∀ z : Rat, 0 < z → compute_federal_tax z yr =
      bracketTax
        (max 0 (z - lookupD STANDARD_DEDUCTION (clampYear yr) 0 -
          lookupD PERSONAL_EXEMPTION (clampYear yr) 0))
        (lookupD FEDERAL_BRACKETS (clampYear yr) []) := by
    intro z hz
    simp only [compute_federal_tax, if_neg (not_le.mpr hz)]
    by_cases h0 : max 0 (z - lookupD STANDARD_DEDUCTION (clampYear yr) 0 -
        lookupD PERSONAL_EXEMPTION (clampYear yr) 0) ≤ 0
    · have hmax0 : max 0 (z - lookupD STANDARD_DEDUCTION (clampYear yr) 0 -
          lookupD PERSONAL_EXEMPTION (clampYear yr) 0) = 0 :=
        le_antisymm h0 (le_max_left _ _)
      rw [if_pos h0, hmax0, bracketTax_zero _ hthr]
    · rw [if_neg h0]
  rw [hform x hx, hform y (lt_of_lt_of_le hx hxy)]
  have hmx := max0_sub_le
    (a := x - lookupD STANDARD_DEDUCTION (clampYear yr) 0 -
      lookupD PERSONAL_EXEMPTION (clampYear yr) 0)
    (b := y - lookupD STANDARD_DEDUCTION (clampYear yr) 0 -
      lookupD PERSONAL_EXEMPTION (clampYear yr) 0) (by linarith)
  have hlip := bracketTax_lipschitz (fedRateBound (clampYear yr)) hb0
    (lookupD FEDERAL_BRACKETS (clampYear yr) []) hrates hbm
    (max 0 (x - lookupD STANDARD_DEDUCTION (clampYear yr) 0 -
      lookupD PERSONAL_EXEMPTION (clampYear yr) 0))
    (max 0 (y - lookupD STANDARD_DEDUCTION (clampYear yr) 0 -
      lookupD PERSONAL_EXEMPTION (clampYear yr) 0))
    (by linarith [hmx.1])
  nlinarith [hlip, hmx.1, hmx.2]

/-- Payroll: `compute_fica` changes by at most the sum of the SS rate, Medicare
rate, and (when applicable) additional Medicare rate per dollar of gross
income (for positive incomes). -/
theorem fica_lipschitz (yr : Int) {x y : Rat} (hx : 0 < x) (hxy : x ≤ y) :
    compute_fica y yr - compute_fica x yr ≤
      (lookupD SS_RATE (clampYear yr) 0 + lookupD MEDICARE_RATE (clampYear yr) 0 +
        addlRateFor (clampYear yr)) * (y - x) := by
  obtain ⟨_, hsr, hmr, _, _⟩ := yearOK_clamp yr
  have hy : 0 < y := lt_of_lt_of_le hx hxy
  have har : (0:Rat) ≤ ADDITIONAL_MEDICARE_RATE := by norm_num [ADDITIONAL_MEDICARE_RATE]
  have hth : ADDITIONAL_MEDICARE_THRESHOLD = 200000 := rfl
  simp only [compute_fica, if_neg (not_le.mpr hx), if_neg (not_le.mpr hy)]
  have hmb := min_sub_le (c := lookupD SS_WAGE_BASE (clampYear yr) 0) hxy
  -- Social Security part
  have hss : min y (lookupD SS_WAGE_BASE (clampYear yr) 0) * lookupD SS_RATE (clampYear yr) 0 -
      min x (lookupD SS_WAGE_BASE (clampYear yr) 0) * lookupD SS_RATE (clampYear yr) 0 ≤
      lookupD SS_RATE (clampYear yr) 0 * (y - x) := by
    nlinarith [hmb.1, hmb.2]
  -- Medicare base part
  have hmed : (if MEDICARE_UNCAPPED_START_YEAR ≤ clampYear yr
        then y * lookupD MEDICARE_RATE (clampYear yr) 0
        else min y (lookupD SS_WAGE_BASE (clampYear yr) 0) * lookupD MEDICARE_RATE (clampYear yr) 0) -
      (if MEDICARE_UNCAPPED_START_YEAR ≤ clampYear yr
        then x * lookupD MEDICARE_RATE (clampYear yr) 0
        else min x (lookupD SS_WAGE_BASE (clampYear yr) 0) * lookupD MEDICARE_RATE (clampYear yr) 0) ≤
      lookupD MEDICARE_RATE (clampYear yr) 0 * (y - x) := by
    by_cases h94 : MEDICARE_UNCAPPED_START_YEAR ≤ clampYear yr
    · rw [if_pos h94, if_pos h94]
      nlinarith
    · rw [if_neg h94, if_neg h94]
      nlinarith [hmb.1, hmb.2]
  by_cases h13 : ADDITIONAL_MEDICARE_START_YEAR ≤ clampYear yr
  · have haddl : addlRateFor (clampYear yr) = ADDITIONAL_MEDICARE_RATE := if_pos h13
    rw [haddl]
    by_cases hxth : ADDITIONAL_MEDICARE_THRESHOLD < x
    · have hyth : ADDITIONAL_MEDICARE_THRESHOLD < y := lt_of_lt_of_le hxth hxy
      have hcy : ADDITIONAL_MEDICARE_START_YEAR ≤ clampYear yr ∧
          ADDITIONAL_MEDICARE_THRESHOLD < y := And.intro h13 hyth
      have hcx : ADDITIONAL_MEDICARE_START_YEAR ≤ clampYear yr ∧
          ADDITIONAL_MEDICARE_THRESHOLD < x := And.intro h13 hxth
      rw [if_pos hcy, if_pos hcx]
      have hsur : (y - ADDITIONAL_MEDICARE_THRESHOLD) * ADDITIONAL_MEDICARE_RATE -
          (x - ADDITIONAL_MEDICARE_THRESHOLD) * ADDITIONAL_MEDICARE_RATE =
          ADDITIONAL_MEDICARE_RATE * (y - x) := by ring
      linarith [hss, hmed, hsur]
    · by_cases hyth : ADDITIONAL_MEDICARE_THRESHOLD < y
      · have hcy : ADDITIONAL_MEDICARE_START_YEAR ≤ clampYear yr ∧
            ADDITIONAL_MEDICARE_THRESHOLD < y := And.intro h13 hyth
        have hncx : ¬(ADDITIONAL_MEDICARE_START_YEAR ≤ clampYear yr ∧
            ADDITIONAL_MEDICARE_THRESHOLD < x) := fun hc => hxth hc.2
        rw [if_pos hcy, if_neg hncx]
        have hxle : x ≤ ADDITIONAL_MEDICARE_THRESHOLD := not_lt.mp hxth
        have hsur : (y - ADDITIONAL_MEDICARE_THRESHOLD) * ADDITIONAL_MEDICARE_RATE ≤
            ADDITIONAL_MEDICARE_RATE * (y - x) := by
          have h1 : (y - ADDITIONAL_MEDICARE_THRESHOLD) * ADDITIONAL_MEDICARE_RATE ≤
              (y - x) * ADDITIONAL_MEDICARE_RATE :=
            mul_le_mul_of_nonneg_right (by linarith) har
          linarith [h1, (by ring : (y - x) * ADDITIONAL_MEDICARE_RATE =
            ADDITIONAL_MEDICARE_RATE * (y - x))]
        linarith [hss, hmed, hsur]
      · have hncy : ¬(ADDITIONAL_MEDICARE_START_YEAR ≤ clampYear yr ∧
            ADDITIONAL_MEDICARE_THRESHOLD < y) := fun hc => hyth hc.2
        have hncx : ¬(ADDITIONAL_MEDICARE_START_YEAR ≤ clampYear yr ∧
            ADDITIONAL_MEDICARE_THRESHOLD < x) := fun hc => hxth hc.2
        rw [if_neg hncy, if_neg hncx]
        have hsur : (0:Rat) ≤ ADDITIONAL_MEDICARE_RATE * (y - x) :=
          mul_nonneg har (by linarith)
        linarith [hss, hmed, hsur]
  · have haddl : addlRateFor (clampYear yr) = 0 := if_neg h13
    rw [haddl]
    have hncy : ¬(ADDITIONAL_MEDICARE_START_YEAR ≤ clampYear yr ∧
        ADDITIONAL_MEDICARE_THRESHOLD < y) := fun hc => h13 hc.1
    have hncx : ¬(ADDITIONAL_MEDICARE_START_YEAR ≤ clampYear yr ∧
        ADDITIONAL_MEDICARE_THRESHOLD < x) := fun hc => h13 hc.1
    rw [if_neg hncy, if_neg hncx]
    linarith [hss, hmed]

/-- State: `compute_state_tax` with a rate at most `1/20` changes by at most
`1/20` per dollar of gross income (for positive incomes). -/
theorem state_lipschitz (yr : Int) (r : Rat) (hr : r ≤ 1/20) {x y : Rat}
    (hx : 0 < x) (hxy : x ≤ y) :
    compute_state_tax y yr r - compute_state_tax x yr r ≤ (1/20) * (y - x) := by
  have hy : 0 < y := lt_of_lt_of_le hx hxy
  by_cases hr0 : r ≤ 0
  · simp only [compute_state_tax, if_pos (Or.inr hr0)]
    nlinarith
  · have hrpos : 0 < r := not_le.mp hr0
    have hnx : ¬(x ≤ 0 ∨ r ≤ 0) := by
      push_neg
      exact ⟨hx, hrpos⟩
    have hny : ¬(y ≤ 0 ∨ r ≤ 0) := by
      push_neg
      exact ⟨hy, hrpos⟩
    simp only [compute_state_tax]
    rw [if_neg hny, if_neg hnx]
    have hms := max0_sub_le
      (a := x - lookupD STANDARD_DEDUCTION (clampYear yr) 0)
      (b := y - lookupD STANDARD_DEDUCTION (clampYear yr) 0) (by linarith)
    nlinarith [hms.1, hms.2]

/-- C1, amended: for every fixed year and every state rate at most 0.05
(in particular the default 0.05 and the no-state-tax 0), the map from
gross income to the net income returned by `compute_after_tax` is
non-decreasing over all rational incomes. -/
theorem c1_after_tax_monotone (year : Int) (state_rate : Rat)
    (hr : state_rate ≤ 1/20) {g1 g2 : Rat} (hg : g1 ≤ g2) :
    (compute_after_tax g1 year state_rate).1 ≤ (compute_after_tax g2 year state_rate).1 := by
  by_cases h2 : g2 ≤ 0
  · have h1 : g1 ≤ 0 := hg.trans h2
    simp only [compute_after_tax, if_pos h1, if_pos h2]
    exact hg
  · by_cases h1 : g1 ≤ 0
    · simp only [compute_after_tax, if_pos h1, if_neg h2]
      exact h1.trans (le_max_left _ _)
    · have hx : 0 < g1 := not_le.mp h1
      simp only [compute_after_tax, if_neg h1, if_neg h2]
      have hf := fed_lipschitz year hx hg
      have hfica := fica_lipschitz year hx hg
      have hst := state_lipschitz year state_rate hr hx hg
      have hform : fedRateBound (clampYear year) * (g2 - g1) +
          (lookupD SS_RATE (clampYear year) 0 + lookupD MEDICARE_RATE (clampYear year) 0 +
            addlRateFor (clampYear year)) * (g2 - g1) + (1/20) * (g2 - g1) = g2 - g1 := by
        have hd : DEFAULT_STATE_RATE = 1/20 := by norm_num [DEFAULT_STATE_RATE]
        simp only [fedRateBound, hd]
        ring
      exact max_le_max (le_refl 0) (by linarith)

/-- C1 counterexample: as stated (for every state rate) the claim fails:
with state rate 1 the net income at gross 100000 is below the net income
at gross 20000 for year 2024. -/
theorem c1_counterexample :
    (20000 : Rat) < 100000 ∧
    (compute_after_tax 100000 2024 1).1 < (compute_after_tax 20000 2024 1).1 := by
  have h1 : (compute_after_tax 100000 2024 1).1 = 0 := by with_unfolding_all rfl
  have h2 : (compute_after_tax 20000 2024 1).1 = 12530 := by with_unfolding_all rfl
  rw [h1, h2]
  norm_num

/-- C1 witness: the amended monotonicity theorem applied at a concrete
year, rate, and pair of incomes. -/
theorem c1_witness :
    (1/20 : Rat) ≤ 1/20 ∧ (50000 : Rat) ≤ 60000 ∧
    (compute_after_tax 50000 2024 (1/20)).1 ≤ (compute_after_tax 60000 2024 (1/20)).1 :=
  ⟨le_refl _, by norm_num,
    c1_after_tax_monotone 2024 (1/20) (le_refl _) (by norm_num)⟩

/-- C2, amended: for gross_income ≤ 0, `compute_after_tax` returns the
gross income itself as the net income (so 0 only when the gross income is
0), a breakdown whose four components are 0, and no effective-rate entry. -/
theorem c2_nonpositive_income (g : Rat) (year : Int) (state_rate : Rat) (hg : g ≤ 0) :
    compute_after_tax g year state_rate = (g, ⟨0, 0, 0, 0, none⟩) := by
  simp only [compute_after_tax, if_pos hg]

/-- C2 counterexample: at gross income -100 the claimed net income 0 and
the claimed zero effective rate both fail: the net income is the
negative gross income and the breakdown has no effective-rate entry. -/
theorem c2_counterexample :
    (compute_after_tax (-100) 2024 (1/20)).1 ≠ 0 ∧
    (compute_after_tax (-100) 2024 (1/20)).2.effective_rate = none := by
  have h : compute_after_tax (-100) 2024 (1/20) = (-100, ⟨0, 0, 0, 0, none⟩) := by
    with_unfolding_all rfl
  rw [h]
  norm_num

/-- C2 witness: the amended statement at gross income -100. -/
theorem c2_witness :
    (-100 : Rat) ≤ 0 ∧ compute_after_tax (-100) 2024 (1/20) = (-100, ⟨0, 0, 0, 0, none⟩) :=
  ⟨by norm_num, c2_nonpositive_income (-100) 2024 (1/20) (by norm_num)⟩

/-- C3, amended: `federal_tax(50000, 2024)` equals taxable income 35400
taxed progressively, 10 percent of 11600 plus 12 percent of
(35400 - 11600), which is exactly 4016.00 (not approximately 4030.00). -/
theorem c3_federal_tax_2024 :
    compute_federal_tax 50000 2024 = 4016 ∧
    (4016 : Rat) = 0.10 * 11600 + 0.12 * (35400 - 11600) := by
  constructor
  · with_unfolding_all rfl
  · norm_num

/-- C3 counterexample: the computed federal tax is 4016, which is not
within half a dollar of the claimed approximate value 4030.00 (the
claimed progressive formula itself evaluates to 4016, not 4030). -/
theorem c3_counterexample :
    compute_federal_tax 50000 2024 = 4016 ∧
    ¬|compute_federal_tax 50000 2024 - 4030| < 1/2 := by
  have h : compute_federal_tax 50000 2024 = 4016 := by with_unfolding_all rfl
  rw [h]
  norm_num [abs_sub_lt_iff]

/-- C5: from the additional-Medicare start year on (after clamping) and
above the 200000 threshold, `compute_fica` is exactly the base
SS-plus-Medicare amount plus `(gross - 200000) * 0.009`, with no wage
base applied to the surtax; in particular `fica(250000, 2024)` exceeds
the base amount by exactly 450. -/
theorem c5_additional_medicare (g : Rat) (year : Int)
    (h13 : ADDITIONAL_MEDICARE_START_YEAR ≤ clampYear year)
    (hg : ADDITIONAL_MEDICARE_THRESHOLD < g) :
    compute_fica g year =
      ficaBase g year + (g - ADDITIONAL_MEDICARE_THRESHOLD) * ADDITIONAL_MEDICARE_RATE ∧
    compute_fica 250000 2024 - ficaBase 250000 2024 = 450 := by
  constructor
  · have hgpos : 0 < g :=
      lt_trans (by norm_num [ADDITIONAL_MEDICARE_THRESHOLD]) hg
    simp only [compute_fica, ficaBase, if_neg (not_le.mpr hgpos)]
    rw [if_pos (And.intro h13 hg)]
    ring
  · with_unfolding_all rfl

/-- C5 witness: the surtax decomposition at gross income 250000 in 2024. -/
theorem c5_witness :
    compute_fica 250000 2024 =
      ficaBase 250000 2024 + ((250000 : Rat) - ADDITIONAL_MEDICARE_THRESHOLD) * ADDITIONAL_MEDICARE_RATE ∧
    compute_fica 250000 2024 - ficaBase 250000 2024 = 450 :=
  c5_additional_medicare 250000 2024 (by decide)
    (by norm_num [ADDITIONAL_MEDICARE_THRESHOLD])

theorem clamp_low {y : Int} (h : y < MIN_TAX_YEAR) : clampYear y = 1961 := by
  simp only [clampYear, MIN_TAX_YEAR, MAX_TAX_YEAR] at *
  omega

theorem clamp_high {y : Int} (h : MAX_TAX_YEAR < y) : clampYear y = 2025 := by
  simp only [clampYear, MIN_TAX_YEAR, MAX_TAX_YEAR] at *
  omega

theorem clamp_1961 : clampYear 1961 = 1961 := by decide

theorem clamp_2025 : clampYear 2025 = 2025 := by decide

/-- C8: out-of-range years are silently clamped: below 1961 all three tax
functions agree with 1961, above 2025 they agree with 2025. -/
theorem c8_year_clamping (g r : Rat) (y : Int) :
    (y < MIN_TAX_YEAR →
      compute_federal_tax g y = compute_federal_tax g 1961 ∧
      compute_fica g y = compute_fica g 1961 ∧
      compute_state_tax g y r = compute_state_tax g 1961 r) ∧
    (MAX_TAX_YEAR < y →
      compute_federal_tax g y = compute_federal_tax g 2025 ∧
      compute_fica g y = compute_fica g 2025 ∧
      compute_state_tax g y r = compute_state_tax g 2025 r) := by
  constructor
  · intro h
    refine ⟨?_, ?_, ?_⟩ <;>
      simp only [compute_federal_tax, compute_fica, compute_state_tax, clamp_low h, clamp_1961]
  · intro h
    refine ⟨?_, ?_, ?_⟩ <;>
      simp only [compute_federal_tax, compute_fica, compute_state_tax, clamp_high h, clamp_2025]

/-- C8 witness: clamping at the concrete out-of-range years 1900 and 2100. -/
theorem c8_witness :
    compute_federal_tax 50000 1900 = compute_federal_tax 50000 1961 ∧
    compute_fica 50000 2100 = compute_fica 50000 2025 :=
  ⟨((c8_year_clamping 50000 (1/20) 1900).1 (by decide)).1,
   ((c8_year_clamping 50000 (1/20) 2100).2 (by decide)).2.1⟩

/-- Annotating a record twice with the same parameters equals annotating
it once. -/
theorem annotateRecord_idem (year : Int) (sr : Rat) (r : Record) :
    annotateRecord year sr (annotateRecord year sr r) = annotateRecord year sr r := by
  have hat : ∀ g old : Option Rat,
      atField year sr g (atField year sr g old) = atField year sr g old := by
    intro g old
    cases g <;> simp [atField]
  simp only [annotateRecord, hat]
  cases hp : r.p50 with
  | none => rfl
  | some m =>
    split <;> rename_i hcond <;> simp [hcond] <;> intro h <;> rw [if_pos h]

/-- C9: running the after-tax annotator twice with an identical state
rate yields the same table (hence identical at_mean, at_p and
at_effective_rate_p50 fields in every record) as running it once. -/
theorem c9_idempotent (data : List (Int × List (Int × Record))) (state_rate : Rat) :
    add_after_tax_to_data (add_after_tax_to_data data state_rate) state_rate =
      add_after_tax_to_data data state_rate := by
  simp only [add_after_tax_to_data, List.map_map]
  refine List.map_congr_left ?_
  intro yr _
  simp only [Function.comp]
  refine congrArg (fun l => (yr.1, l)) ?_
  simp only [List.map_map]
  refine List.map_congr_left ?_
  intro ar _
  simp only [Function.comp, annotateRecord_idem]

/- ═══════════════════════════════════════════════════════════════════════
   Weighted percentile engine: supporting lemmas.
   ═══════════════════════════════════════════════════════════════════════ -/

theorem idxFrom_length : ∀ (k : Nat) (l : List (Rat × Rat)), (idxFrom k l).length = l.length
  | _, [] => rfl
  | k, _ :: t => by simp [idxFrom, idxFrom_length (k + 1) t]

theorem idxFrom_append : ∀ (k : Nat) (l1 l2 : List (Rat × Rat)),
    idxFrom k (l1 ++ l2) = idxFrom k l1 ++ idxFrom (k + l1.length) l2
  | _, [], l2 => by simp [idxFrom]
  | k, x :: t, l2 => by
    show (k, x) :: idxFrom (k + 1) (t ++ l2) =
      ((k, x) :: idxFrom (k + 1) t) ++ idxFrom (k + (x :: t).length) l2
    rw [idxFrom_append (k + 1) t l2]
    have he : k + 1 + t.length = k + (x :: t).length := by
      simp only [List.length_cons]
      omega
    rw [he, List.cons_append]

theorem idxFrom_idx_lt : ∀ (k : Nat) (l : List (Rat × Rat)) (e : Nat × (Rat × Rat)),
    e ∈ idxFrom k l → k ≤ e.1 ∧ e.1 < k + l.length
  | k, x :: t, e, h => by
    rcases List.mem_cons.mp h with he | he
    · subst he
      simp
    · have := idxFrom_idx_lt (k + 1) t e he
      simp only [List.length_cons]
      omega

theorem idxFrom_snd_mem : ∀ (k : Nat) (l : List (Rat × Rat)) (e : Nat × (Rat × Rat)),
    e ∈ idxFrom k l → e.2 ∈ l
  | k, x :: t, e, h => by
    rcases List.mem_cons.mp h with he | he
    · subst he
      simp
    · exact List.mem_cons_of_mem _ (idxFrom_snd_mem (k + 1) t e he)

theorem idxFrom_mem_of_mem : ∀ (k : Nat) (l : List (Rat × Rat)) (q : Rat × Rat),
    q ∈ l → ∃ i, (i, q) ∈ idxFrom k l
  | k, x :: t, q, h => by
    rcases List.mem_cons.mp h with he | he
    · exact ⟨k, by simp [idxFrom, he]⟩
    · obtain ⟨i, hi⟩ := idxFrom_mem_of_mem (k + 1) t q he
      exact ⟨i, List.mem_cons_of_mem _ hi⟩

theorem mem_zip_left : ∀ (l1 l2 : List Rat), l2.length = l1.length →
    ∀ x ∈ l1, ∃ w, (x, w) ∈ l1.zip l2
  | x1 :: t1, w1 :: t2, hlen, x, hx => by
    rcases List.mem_cons.mp hx with he | he
    · exact ⟨w1, by simp [he]⟩
    · obtain ⟨w, hw⟩ := mem_zip_left t1 t2 (by simpa using hlen) x he
      exact ⟨w, List.mem_cons_of_mem _ hw⟩

/-- Unfolded membership facts about the sorted keyed observations. -/
theorem sorted_keyed_facts (values weights : List Rat) (e : Nat × (Rat × Rat))
    (he : e ∈ (idxFrom 0 (values.zip weights)).insertionSort keyLE) :
    e.2 ∈ values.zip weights ∧ e.1 < (values.zip weights).length := by
  have hK : e ∈ idxFrom 0 (values.zip weights) :=
    (List.perm_insertionSort keyLE _).mem_iff.mp he
  refine ⟨idxFrom_snd_mem _ _ _ hK, ?_⟩
  have := idxFrom_idx_lt 0 _ _ hK
  omega

/-- C7, amended: `weighted_percentile` raises exactly when the values
sequence is longer than the weights sequence; when the weights sequence
is the longer one it silently computes a percentile from the weights at
the value positions. -/
theorem c7_mismatched_lengths (values weights : List Rat) (p : Rat) :
    (weights.length < values.length →
      ∃ e, weighted_percentile values weights p = .error e) ∧
    (values.length ≤ weights.length → values.length ≠ 0 →
      ∃ q, weighted_percentile values weights p = .ok q) := by
  constructor
  · intro h
    have hne : values.length ≠ 0 := by omega
    simp only [weighted_percentile, if_neg hne, if_pos h]
    exact ⟨_, rfl⟩
  · intro h hne
    simp only [weighted_percentile, if_neg hne, if_neg (not_lt.mpr h)]
    exact ⟨_, rfl⟩

/-- C7 counterexample: with one value and two weights (unequal lengths,
each at least 1) `weighted_percentile` silently returns a value rather
than raising. -/
theorem c7_counterexample :
    ([(1 : Rat)].length ≠ ([2, 3] : List Rat).length) ∧
    weighted_percentile [1] [2, 3] 50 = .ok 1 := by
  constructor
  · decide
  · with_unfolding_all rfl

/-- C7 witness: the amended claim at concrete inputs on both sides. -/
theorem c7_witness :
    (∃ e, weighted_percentile [(5 : Rat), 6] [7] 50 = .error e) ∧
    (∃ q, weighted_percentile [(5 : Rat)] [7, 8] 50 = .ok q) :=
  ⟨(c7_mismatched_lengths [5, 6] [7] 50).1 (by decide),
   (c7_mismatched_lengths [5] [7, 8] 50).2 (by decide) (by decide)⟩

/-- C10: on a non-empty values list whose weights are all zero,
`weighted_percentile` does not raise and returns the minimum value for
every percentile in [0, 100] (the target cumulative weight is 0, so the
minimum-value branch is taken and the interpolation division is never
reached). -/
theorem c10_zero_weights (values weights : List Rat) (p : Rat)
    (hne : values ≠ []) (hlen : weights.length = values.length)
    (hw : ∀ w ∈ weights, w = 0) (hp : 0 ≤ p ∧ p ≤ 100) :
    ∃ m, weighted_percentile values weights p = .ok m ∧
      m ∈ values ∧ ∀ x ∈ values, m ≤ x := by
  have hlen0 : values.length ≠ 0 := fun h => hne (List.length_eq_zero.mp h)
  have hzip : (values.zip weights).length = values.length := by
    rw [List.length_zip, hlen]
    omega
  -- the sorted list is nonempty
  have hSlen : ((idxFrom 0 (values.zip weights)).insertionSort keyLE).length =
      values.length := by
    rw [(List.perm_insertionSort keyLE _).length_eq, idxFrom_length, hzip]
  obtain ⟨s0, S2, hS⟩ : ∃ s0 S2,
      (idxFrom 0 (values.zip weights)).insertionSort keyLE = s0 :: S2 := by
    cases h : (idxFrom 0 (values.zip weights)).insertionSort keyLE with
    | nil => rw [h] at hSlen; simp at hSlen; omega
    | cons a t => exact ⟨a, t, rfl⟩
  have hsorted := List.sorted_insertionSort keyLE (idxFrom 0 (values.zip weights))
  rw [hS] at hsorted
  have hhead := (List.sorted_cons.mp hsorted).1
  -- every weight appearing in the sorted pairs is zero
  have hwts : ∀ e ∈ (idxFrom 0 (values.zip weights)).insertionSort keyLE,
      e.2.2 = 0 := by
    intro e he
    have := (sorted_keyed_facts values weights e he).1
    exact hw _ (List.of_mem_zip this).2
  have hw0 : s0.2.2 = 0 := hwts s0 (hS ▸ List.mem_cons_self _ _)
  have hsum : ((S2.map Prod.snd).map Prod.snd).sum = 0 := by
    apply List.sum_eq_zero
    intro x hx
    simp only [List.map_map, List.mem_map] at hx
    obtain ⟨e, he, hex⟩ := hx
    rw [← hex]
    exact hwts e (hS ▸ List.mem_cons_of_mem _ he)
  refine ⟨s0.2.1, ?_, ?_, ?_⟩
  · simp only [weighted_percentile, if_neg hlen0,
      if_neg (not_lt.mpr (le_of_eq hlen.symm))]
    refine congrArg Except.ok ?_
    show wpCore (sortedPairs values weights) p = s0.2.1
    have hsp : sortedPairs values weights = (s0.2.1, s0.2.2) :: S2.map Prod.snd := by
      simp only [sortedPairs, hS, List.map_cons]
    rw [hsp]
    simp only [wpCore, hw0, hsum]
    rw [if_pos (by simp : p / 100 * ((0:Rat) + 0) ≤ 0)]
  · have : s0.2 ∈ values.zip weights :=
      (sorted_keyed_facts values weights s0 (hS ▸ List.mem_cons_self _ _)).1
    exact (List.of_mem_zip this).1
  · intro x hx
    obtain ⟨w, hwmem⟩ := mem_zip_left values weights hlen x hx
    obtain ⟨i, hi⟩ := idxFrom_mem_of_mem 0 _ _ hwmem
    have hiS : (i, (x, w)) ∈ (idxFrom 0 (values.zip weights)).insertionSort keyLE :=
      (List.perm_insertionSort keyLE _).mem_iff.mpr hi
    rw [hS] at hiS
    rcases List.mem_cons.mp hiS with he | he
    · rw [← he]
    · have := hhead _ he
      rcases this with h1 | h2
      · exact le_of_lt h1
      · exact le_of_eq h2.1

/-- Inserting with `orderedInsert` of two elements with no tie between them commutes. -/
theorem orderedInsert_comm (x a : Nat × (Rat × Rat))
    (hnt : ¬(keyLE x a ∧ keyLE a x)) (s : List (Nat × (Rat × Rat))) :
    (s.orderedInsert keyLE a).orderedInsert keyLE x =
      (s.orderedInsert keyLE x).orderedInsert keyLE a := by
  induction s with
  | nil =>
    rcases IsTotal.total (r := keyLE) x a with hxa | hax
    · have hnax : ¬keyLE a x := fun q => hnt ⟨hxa, q⟩
      simp only [List.orderedInsert, if_pos hxa, if_neg hnax]
    · have hnxa : ¬keyLE x a := fun q => hnt ⟨q, hax⟩
      simp only [List.orderedInsert, if_neg hnxa, if_pos hax]
  | cons c s ih =>
    by_cases hac : keyLE a c <;> by_cases hxc : keyLE x c
    · rcases IsTotal.total (r := keyLE) x a with hxa | hax
      · have hnax : ¬keyLE a x := fun q => hnt ⟨hxa, q⟩
        simp only [List.orderedInsert, if_pos hac, if_pos hxc, if_pos hxa, if_neg hnax]
      · have hnxa : ¬keyLE x a := fun q => hnt ⟨q, hax⟩
        simp only [List.orderedInsert, if_pos hac, if_pos hxc, if_neg hnxa, if_pos hax]
    · have hnxa : ¬keyLE x a := fun q => hxc (IsTrans.trans _ _ _ q hac)
      simp only [List.orderedInsert, if_pos hac, if_neg hxc, if_neg hnxa]
    · have hnax : ¬keyLE a x := fun q => hac (IsTrans.trans _ _ _ q hxc)
      simp only [List.orderedInsert, if_neg hac, if_pos hxc, if_neg hnax]
    · simp only [List.orderedInsert, if_neg hac, if_neg hxc, ih]

/-- Sorting with one extra element appended is an ordered insertion into
the sorted rest, provided the extra element ties with nothing. -/
theorem insertionSort_append_one (l : List (Nat × (Rat × Rat))) (a : Nat × (Rat × Rat))
    (h : ∀ x ∈ l, ¬(keyLE x a ∧ keyLE a x)) :
    List.insertionSort keyLE (l ++ [a]) =
      (List.insertionSort keyLE l).orderedInsert keyLE a := by
  induction l with
  | nil => simp [List.insertionSort]
  | cons b l ih =>
    have hb : ¬(keyLE b a ∧ keyLE a b) := h b (List.mem_cons_self _ _)
    have hl : ∀ x ∈ l, ¬(keyLE x a ∧ keyLE a x) :=
      fun x hx => h x (List.mem_cons_of_mem _ hx)
    show (List.insertionSort keyLE (l ++ [a])).orderedInsert keyLE b =
      ((List.insertionSort keyLE l).orderedInsert keyLE b).orderedInsert keyLE a
    rw [ih hl]
    exact orderedInsert_comm b a hb _

/-- In a sorted list, everything dropped by
`dropWhile (fun b => not (keyLE a b))` is keyLE-above `a`. -/
theorem dropWhile_keyLE (a : Nat × (Rat × Rat)) :
    ∀ S : List (Nat × (Rat × Rat)), List.Sorted keyLE S →
      ∀ e ∈ S.dropWhile (fun b => decide ¬(keyLE a b)), keyLE a e
  | [], _, e, he => by simp at he
  | s :: S, hs, e, he => by
    by_cases hp : keyLE a s
    · rw [List.dropWhile_cons_of_neg (by simpa using hp)] at he
      rcases List.mem_cons.mp he with rfl | he2
      · exact hp
      · exact IsTrans.trans _ _ _ hp ((List.sorted_cons.mp hs).1 _ he2)
    · rw [List.dropWhile_cons_of_pos (by simpa using hp)] at he
      exact dropWhile_keyLE a S (List.sorted_cons.mp hs).2 e he

/-- The helper `lastVal` ignores a zero-weight duplicate inserted after an
observation with the same value. -/
theorem lastVal_insert (v w : Rat) (Y : List (Rat × Rat)) :
    ∀ (Z : List (Rat × Rat)) (u : Rat),
      lastVal u (Z ++ (v, w) :: (v, 0) :: Y) = lastVal u (Z ++ (v, w) :: Y)
  | [], u => by
    simp only [List.nil_append, lastVal]
  | z :: Z, u => by
    simp only [List.cons_append, lastVal]
    exact lastVal_insert v w Y Z z.1

/-- The interpolation walk ignores a zero-weight duplicate inserted
right after an observation with the same value. -/
theorem interpLoop_insert (target v w : Rat) (Y : List (Rat × Rat)) :
    ∀ (Z : List (Rat × Rat)) (c u : Rat),
      interpLoop target c u (Z ++ (v, w) :: (v, 0) :: Y) =
        interpLoop target c u (Z ++ (v, w) :: Y)
  | [], c, u => by
    simp only [List.nil_append, interpLoop]
    by_cases h1 : target ≤ c + w
    · rw [if_pos h1, if_pos h1]
    · rw [if_neg h1, if_neg h1]
      simp only [interpLoop, add_zero]
      rw [if_neg h1]
  | z :: Z, c, u => by
    simp only [List.cons_append, interpLoop]
    by_cases h1 : target ≤ c + z.2
    · rw [if_pos h1, if_pos h1]
    · rw [if_neg h1, if_neg h1]
      exact interpLoop_insert target v w Y Z (c + z.2) z.1

/-- The core `wpCore` is unchanged by a zero-weight observation inserted right
after an observation carrying the same value. -/
theorem wpCore_insert (v w p : Rat) (X Y : List (Rat × Rat)) :
    wpCore (X ++ (v, w) :: (v, 0) :: Y) p = wpCore (X ++ (v, w) :: Y) p := by
  cases X with
  | nil =>
    simp only [List.nil_append, wpCore, List.map_cons, List.sum_cons, zero_add]
    by_cases h1 : p / 100 * (w + (Y.map Prod.snd).sum) ≤ w
    · rw [if_pos h1, if_pos h1]
    · rw [if_neg h1, if_neg h1]
      by_cases h2 : w + (Y.map Prod.snd).sum ≤ p / 100 * (w + (Y.map Prod.snd).sum)
      · rw [if_pos h2, if_pos h2]
        simp only [lastVal]
      · rw [if_neg h2, if_neg h2]
        simp only [interpLoop, add_zero]
        rw [if_neg h1]
  | cons x X2 =>
    obtain ⟨x1, x2⟩ := x
    have hsum : ((X2 ++ (v, w) :: (v, 0) :: Y).map Prod.snd).sum =
        ((X2 ++ (v, w) :: Y).map Prod.snd).sum := by
      simp only [List.map_append, List.sum_append, List.map_cons, List.sum_cons]
      ring
    simp only [List.cons_append, wpCore, hsum]
    by_cases h1 : p / 100 * (x2 + ((X2 ++ (v, w) :: Y).map Prod.snd).sum) ≤ x2
    · rw [if_pos h1, if_pos h1]
    · rw [if_neg h1, if_neg h1]
      by_cases h2 : x2 + ((X2 ++ (v, w) :: Y).map Prod.snd).sum ≤
          p / 100 * (x2 + ((X2 ++ (v, w) :: Y).map Prod.snd).sum)
      · rw [if_pos h2, if_pos h2]
        exact lastVal_insert v w Y X2 x1
      · rw [if_neg h2, if_neg h2]
        exact interpLoop_insert _ v w Y X2 x2 x1

/-- Appending a zero-weight observation whose value `v` already occurs
splits the sorted observations as: the original sorted list with the
`(v, 0)` pair inserted immediately after an original observation of
value `v`. -/
theorem sortedPairs_append_dup (values weights : List Rat) (v : Rat)
    (hv : v ∈ values) (hlen : weights.length = values.length) :
    ∃ X Y w2, sortedPairs values weights = X ++ (v, w2) :: Y ∧
      sortedPairs (values ++ [v]) (weights ++ [0]) = X ++ (v, w2) :: (v, 0) :: Y := by
  set Z := values.zip weights with hZ
  set a : Nat × (Rat × Rat) := (Z.length, (v, 0)) with ha
  set K := idxFrom 0 Z with hKdef
  set S := K.insertionSort keyLE with hSdef
  have hnt : ∀ x ∈ K, ¬(keyLE x a ∧ keyLE a x) := by
    intro x hx hboth
    have hxlt : x.1 < Z.length := by
      have := idxFrom_idx_lt 0 Z x hx
      omega
    obtain ⟨h1, h2⟩ := hboth
    rcases h1 with hlt1 | ⟨heq1, hle1⟩ <;> rcases h2 with hlt2 | ⟨heq2, hle2⟩
    · exact absurd (hlt1.trans hlt2) (lt_irrefl _)
    · rw [heq2] at hlt1
      exact absurd hlt1 (lt_irrefl _)
    · rw [heq1] at hlt2
      exact absurd hlt2 (lt_irrefl _)
    · simp only [ha] at hle1 hle2
      omega
  have hzip : (values ++ [v]).zip (weights ++ [0]) = Z ++ [(v, 0)] := by
    rw [hZ, List.zip_append hlen.symm]
    rfl
  have hidxapp : idxFrom 0 (Z ++ [(v, 0)]) = K ++ [a] := by
    rw [idxFrom_append, hKdef, ha]
    simp [idxFrom]
  have hsortapp : List.insertionSort keyLE (K ++ [a]) = S.orderedInsert keyLE a :=
    insertionSort_append_one K a hnt
  have hsorted : List.Sorted keyLE S := List.sorted_insertionSort keyLE K
  set P := S.takeWhile (fun b => decide ¬(keyLE a b)) with hPdef
  set Q := S.dropWhile (fun b => decide ¬(keyLE a b)) with hQdef
  have hPQ : P ++ Q = S := List.takeWhile_append_dropWhile _ _
  have hsplit : S.orderedInsert keyLE a = P ++ a :: Q :=
    List.orderedInsert_eq_take_drop keyLE a S
  -- locate an original observation with value v inside the kept prefix
  obtain ⟨w0, hw0⟩ := mem_zip_left values weights hlen v hv
  obtain ⟨i0, hi0⟩ := idxFrom_mem_of_mem 0 Z (v, w0) hw0
  have hi0S : (i0, (v, w0)) ∈ S := (List.perm_insertionSort keyLE K).mem_iff.mpr hi0
  have hi0n : i0 < Z.length := by
    have := idxFrom_idx_lt 0 Z _ hi0
    omega
  have hnota : ¬keyLE a (i0, (v, w0)) := by
    intro h
    rcases h with hlt | ⟨_, hle⟩
    · exact absurd hlt (lt_irrefl _)
    · simp only [ha] at hle
      omega
  have hzP : (i0, (v, w0)) ∈ P := by
    rw [← hPQ] at hi0S
    rcases List.mem_append.mp hi0S with h | h
    · exact h
    · exact absurd (dropWhile_keyLE a S hsorted _ h) hnota
  have hPsorted : List.Pairwise keyLE P :=
    List.Pairwise.sublist (List.takeWhile_sublist _) hsorted
  rcases List.eq_nil_or_concat' P with hnil | ⟨P0, zl, hPdec⟩
  · rw [hnil] at hzP
    simp at hzP
  obtain ⟨zi, zv, zw⟩ := zl
  -- the last element of the kept prefix carries value v
  have hzlP : (zi, (zv, zw)) ∈ P := by
    rw [hPdec]
    exact List.mem_append.mpr (Or.inr (List.mem_singleton_self _))
  have hzlpred : ¬keyLE a (zi, (zv, zw)) := by
    have := List.mem_takeWhile_imp (hPdef ▸ hzlP)
    simpa using this
  have hvle : zv ≤ v := by
    rcases le_or_lt zv v with h | h
    · exact h
    · exact absurd (Or.inl h) hzlpred
  have hlev : v ≤ zv := by
    rw [hPdec] at hzP hPsorted
    rcases List.mem_append.mp hzP with h | h
    · have hrel := (List.pairwise_append.mp hPsorted).2.2 _ h _ (List.mem_singleton_self _)
      rcases hrel with hlt | heq
      · exact le_of_lt hlt
      · exact le_of_eq heq.1
    · have he := List.mem_singleton.mp h
      simp only [Prod.mk.injEq] at he
      exact le_of_eq he.2.1
  have hzv : zv = v := hvle.antisymm hlev
  have hPdec2 : P = P0 ++ [(zi, (v, zw))] := by
    rw [hPdec, hzv]
  refine ⟨P0.map Prod.snd, Q.map Prod.snd, zw, ?_, ?_⟩
  · show S.map Prod.snd = _
    rw [← hPQ, hPdec2]
    simp only [List.map_append, List.map_cons, List.map_nil, List.append_assoc,
      List.singleton_append]
  · show ((idxFrom 0 ((values ++ [v]).zip (weights ++ [0]))).insertionSort keyLE).map
      Prod.snd = _
    rw [hzip, hidxapp, hsortapp, hsplit, hPdec2]
    simp only [List.map_append, List.map_cons, List.map_nil, List.append_assoc,
      List.singleton_append, List.cons_append, List.nil_append, ha]

/-- C6, amended: with observations a zero-weight observation whose value
duplicates an existing value contributes nothing: appending it leaves
`weighted_percentile` unchanged for every percentile (ties in the sort
resolved by original position; a zero-weight observation carrying a NEW
value can change the result, see the counterexample). -/
theorem c6_zero_weight_duplicate (values weights : List Rat) (p v : Rat)
    (hv : v ∈ values) (hlen : weights.length = values.length)
    (hw : ∀ w ∈ weights, 0 ≤ w) :
    weighted_percentile (values ++ [v]) (weights ++ [0]) p =
      weighted_percentile values weights p := by
  have hlv : values.length ≠ 0 :=
    fun h => (List.ne_nil_of_mem hv) (List.length_eq_zero.mp h)
  obtain ⟨X, Y, w2, hold, hnew⟩ := sortedPairs_append_dup values weights v hv hlen
  simp only [weighted_percentile, List.length_append, List.length_singleton]
  rw [if_neg (by omega : ¬values.length + 1 = 0),
    if_neg (by omega : ¬weights.length + 1 < values.length + 1),
    if_neg hlv, if_neg (not_lt.mpr (le_of_eq hlen.symm)), hold, hnew]
  exact congrArg Except.ok (wpCore_insert v w2 p X Y)

/-- C6 counterexample: inserting a zero-weight observation with the new
value 5 into the single observation 10 of weight 1 moves the 50th
percentile from 10 to 7.5: zero-weight observations do shift the
interpolation anchors. -/
theorem c6_counterexample :
    (∀ w ∈ [(1 : Rat), 0], 0 ≤ w) ∧
    weighted_percentile [10] [1] 50 = .ok 10 ∧
    weighted_percentile [10, 5] [1, 0] 50 = .ok (15 / 2) := by
  refine ⟨?_, ?_, ?_⟩
  · intro w hw
    rcases List.mem_cons.mp hw with rfl | hw2
    · norm_num
    · rcases List.mem_singleton.mp hw2 with rfl
      norm_num
  · with_unfolding_all rfl
  · with_unfolding_all rfl

/-- C6 witness: the amended invariance applied to concrete observations
with a duplicated value. -/
theorem c6_witness :
    weighted_percentile ([10, 20] ++ [20]) ([1, 1] ++ [0]) 75 =
      weighted_percentile [10, 20] [1, 1] 75 :=
  c6_zero_weight_duplicate [10, 20] [1, 1] 75 20 (by norm_num) (by norm_num)
    (by
      intro w hw
      rcases List.mem_cons.mp hw with rfl | hw2
      · norm_num
      · rcases List.mem_singleton.mp hw2 with rfl
        norm_num)

/-- C4: every cell emitted by `compute_percentiles` has at least 25
samples, and its `n_samples` counts exactly the observations of its
survey year (income year plus one) and age whose weight is strictly
positive; consequently a cell with fewer such observations is never
emitted. -/
theorem c4_cell_sufficiency (df : List Obs) (age_min age_max iy a : Int)
    (yd : List (Int × CellStats)) (st : CellStats)
    (hy : (iy, yd) ∈ compute_percentiles df age_min age_max)
    (hac : (a, st) ∈ yd) :
    25 ≤ st.n_samples ∧
      st.n_samples =
        (((df.filter (fun o => decide (o.YEAR = iy + 1))).filter
            (fun o => decide (o.AGE = a))).filter
          (fun o => decide (0 < o.ASECWT))).length := by
  simp only [compute_percentiles, List.mem_map] at hy
  obtain ⟨sy, hsy, heq⟩ := hy
  obtain ⟨hiy, hyd⟩ := Prod.mk.injEq _ _ _ _ ▸ heq
  simp only [detect_income_year] at hiy
  have hsy2 : sy = iy + 1 := by omega
  subst hsy2
  rw [← hyd] at hac
  simp only [List.mem_filterMap] at hac
  obtain ⟨a2, ha2, hsome⟩ := hac
  rw [Option.map_eq_some'] at hsome
  obtain ⟨st2, hcell, hpair⟩ := hsome
  obtain ⟨haa, hstst⟩ := Prod.mk.injEq _ _ _ _ ▸ hpair
  subst haa
  subst hstst
  simp only [computeCell] at hcell
  split at hcell
  · exact absurd hcell (by simp)
  · split at hcell
    · exact absurd hcell (by simp)
    · rename_i hgate2
      rw [Option.some.injEq] at hcell
      rw [← hcell]
      dsimp only
      simp only [List.length_map] at hgate2 ⊢
      constructor
      · omega
      · trivial

set_option maxRecDepth 40000 in
/-- C4 witness: the sufficiency facts for the cell built from 25
concrete observations. -/
theorem c4_witness :
    25 ≤ witnessStats.n_samples ∧
      witnessStats.n_samples =
        (((witnessObs.filter (fun o => decide (o.YEAR = 2023 + 1))).filter
            (fun o => decide (o.AGE = 29))).filter
          (fun o => decide (0 < o.ASECWT))).length :=
  c4_cell_sufficiency witnessObs 29 29 2023 29 [(29, witnessStats)] witnessStats
    (by with_unfolding_all decide) (by with_unfolding_all decide)

/-- C10 witness: two zero-weight observations, percentile 50. -/
theorem c10_witness :
    ∃ m, weighted_percentile [3, 7] [0, 0] 50 = .ok m ∧
      m ∈ [(3 : Rat), 7] ∧ ∀ x ∈ [(3 : Rat), 7], m ≤ x :=
  c10_zero_weights [3, 7] [0, 0] 50 (by with_unfolding_all decide)
    (by with_unfolding_all decide) (by with_unfolding_all decide)
    (by with_unfolding_all decide)
